import Mathlib

/-!
Verification development for the Artinerary chatbot core
(`chatbot/ai_service.py`) and the event share-code utilities
(`events/utils.py`).

The Python code is shallowly embedded: pure functions become Lean
functions over `String`/`List Char`, Python floats become real numbers
(rationals at parsing boundaries), Python `None`/str/float values that
flow into `float(...)` conversions become the sum type `PyVal`, and the
external collaborators (artwork table, LLM provider) become explicit
parameters.  External calls made by `process_message` are recorded in an
event trace so that short-circuiting claims ("no repository query
happens") are statable.

Python regular expressions are embedded through a small backtracking
engine (`Rx`) whose search order mirrors CPython's `re` module: leftmost
start position first, alternatives in written order, greedy/lazy
quantifiers by candidate length.  All quantified subpatterns appearing in
the source are single-character classes, so the engine restricts
quantification to character classes (`Rx.many`); the one backreference
pattern `(.)\1{5,}` is embedded directly as `hasRepeat6`.
-/

/-! ## Character and string primitives (Python `str` operations) -/

/-- Python `\w` on ASCII text: letters, digits, underscore. -/
def isWordChar (c : Char) : Bool := c.isAlphanum || c == '_'

/-- Python `\s`: the six ASCII whitespace characters. -/
def isPySpace (c : Char) : Bool :=
  c == ' ' || c == '\t' || c == '\n' || c == '\r' || c == '\x0b' || c == '\x0c'

/-- Python `str.lower` restricted to ASCII (all inputs in the claims are ASCII). -/
def lowerData (s : String) : List Char := s.data.map Char.toLower

/-- The literal `l` occurs in the haystack starting at its head. -/
def litHere (hay l : List Char) : Bool := (hay.take l.length) == l

/-- Python substring test `needle in hay` over char lists. -/
def containsSub (needle : List Char) : List Char → Bool
  | [] => needle.isEmpty
  | c :: rest => litHere (c :: rest) needle || containsSub needle rest

/-- Python `needle in hay` on strings (both as given, no case folding). -/
def containsSubS (hay needle : String) : Bool := containsSub needle.data hay.data

/-- Python `str.strip()` on char lists. -/
def stripChars (s : List Char) : List Char :=
  ((s.dropWhile isPySpace).reverse.dropWhile isPySpace).reverse

/-- Python `str.strip()` on strings. -/
def stripWsS (s : String) : String := String.mk (stripChars s.data)

/-- Python `str.split()` (split on whitespace runs, dropping empties). -/
def splitWsAux : List Char → List Char → List String
  | acc, [] => if acc.isEmpty then [] else [String.mk acc.reverse]
  | acc, c :: rest =>
      if isPySpace c then
        if acc.isEmpty then splitWsAux [] rest
        else String.mk acc.reverse :: splitWsAux [] rest
      else splitWsAux (c :: acc) rest

/-- Python `message.split()`. -/
def splitWs (s : String) : List String := splitWsAux [] s.data

/-- Join a list of words with single spaces, as Python `" ".join(words)`. -/
def joinSpace : List String → String
  | [] => ""
  | [w] => w
  | w :: ws => w ++ " " ++ joinSpace ws

/-- Python `str.replace(old, new)` with `new = ""`: drop every occurrence of
`old` (non-overlapping, left to right).  `old` is assumed non-empty, as are
all the search indicators the source replaces. -/
def removeAllSub (old : List Char) : List Char → List Char
  | [] => []
  | c :: rest =>
      if old.isEmpty then c :: rest
      else if litHere (c :: rest) old then removeAllSub old (rest.drop (old.length - 1))
      else c :: removeAllSub old rest
  termination_by l => l.length
  decreasing_by
    all_goals simp only [List.length_cons, List.length_drop]
    all_goals omega

/-- Python `str.title()` on ASCII: an alphabetic character is uppercased when
the previous character is not alphabetic, lowercased otherwise. -/
def titleCaseAux : Bool → List Char → List Char
  | _, [] => []
  | prevAlpha, c :: cs =>
      (if c.isAlpha then (if prevAlpha then c.toLower else c.toUpper) else c)
        :: titleCaseAux c.isAlpha cs

/-- Python `str.title()`. -/
def titleCase (s : String) : String := String.mk (titleCaseAux false s.data)

/-! ## A backtracking regex engine mirroring CPython `re.search` -/

/-- Regular expression AST covering the constructs used by the source.
Quantification (`many`) is restricted to character classes, which covers
every quantified subpattern of `ai_service.py` (`\s*`, `\w+`, `[^*]+`,
`[\w\s]+?`, `[a-z\s]{3,30}?`, `f+`, `#+`). -/
inductive Rx where
  | eps : Rx
  | cls (p : Char → Bool) : Rx
  | lit (l : List Char) : Rx
  | seq (a b : Rx) : Rx
  | alt (a b : Rx) : Rx
  | opt (r : Rx) : Rx
  | many (p : Char → Bool) (lo : Nat) (hi : Option Nat) (lazy : Bool) : Rx
  | group (idx : Nat) (r : Rx) : Rx
  | wordB : Rx
  | bol : Rx
  | eos : Rx

/-- Matcher state: current position in the subject and captured group spans
`(index, start, stop)`. -/
structure MSt where
  pos : Nat
  caps : List (Nat × Nat × Nat)
  deriving Repr, DecidableEq

/-- Length of the maximal prefix whose characters satisfy `p`. -/
def takeCount (p : Char → Bool) : List Char → Nat
  | [] => 0
  | c :: cs => if p c then takeCount p cs + 1 else 0

/-- Is there a word character at index `i` (false past the end)? -/
def wordAt (s : List Char) (i : Nat) : Bool :=
  match s[i]? with
  | some c => isWordChar c
  | none => false

/-- Python `\b` at position `pos`: exactly one side is a word character. -/
def wordBoundaryAt (s : List Char) (pos : Nat) : Bool :=
  (if pos == 0 then false else wordAt s (pos - 1)) != wordAt s pos

/-- All ways to match `r` at state `st` against subject `s`, in CPython's
backtracking priority order (head = the match `re` would pick at this start
position). -/
def Rx.run (s : List Char) : Rx → MSt → List MSt
  | .eps, st => [st]
  | .cls p, st =>
      match s[st.pos]? with
      | some c => if p c then [{ st with pos := st.pos + 1 }] else []
      | none => []
  | .lit l, st =>
      if litHere (s.drop st.pos) l then [{ st with pos := st.pos + l.length }] else []
  | .seq a b, st => (Rx.run s a st).flatMap (Rx.run s b)
  | .alt a b, st => Rx.run s a st ++ Rx.run s b st
  | .opt r, st => Rx.run s r st ++ [st]
  | .many p lo hi lz, st =>
      let avail := takeCount p (s.drop st.pos)
      let cap := match hi with
        | some h => min avail h
        | none => avail
      if lo > cap then []
      else
        let ks := List.range' lo (cap - lo + 1)
        (if lz then ks else ks.reverse).map (fun k => { st with pos := st.pos + k })
  | .group i r, st =>
      (Rx.run s r st).map (fun st2 => { st2 with caps := st2.caps ++ [(i, st.pos, st2.pos)] })
  | .wordB, st => if wordBoundaryAt s st.pos then [st] else []
  | .bol, st => if st.pos == 0 || s[st.pos - 1]? == some '\n' then [st] else []
  | .eos, st => if st.pos == s.length then [st] else []

/-- Try match start positions `i, i+1, ...` (at most `fuel` of them); the first
position with a match wins, mirroring `re.search`'s leftmost rule. -/
def searchAux (s : List Char) (r : Rx) : Nat → Nat → Option (Nat × MSt)
  | _, 0 => none
  | i, fuel + 1 =>
      match Rx.run s r { pos := i, caps := [] } with
      | st :: _ => some (i, st)
      | [] => searchAux s r (i + 1) fuel

/-- `re.search(r, s)`: the leftmost match as `(start, final state)`. -/
def reSearch (s : List Char) (r : Rx) : Option (Nat × MSt) :=
  searchAux s r 0 (s.length + 1)

/-- The span captured by group `idx`, if any. -/
def capSpan (caps : List (Nat × Nat × Nat)) (idx : Nat) : Option (Nat × Nat) :=
  match caps.find? (fun t => t.1 == idx) with
  | some (_, a, b) => some (a, b)
  | none => none

/-- The characters of subject `s` between positions `a` and `b`. -/
def sliceChars (s : List Char) (a b : Nat) : List Char := (s.drop a).take (b - a)

/-- Sequence a list of regexes in order. -/
def seqL : List Rx → Rx
  | [] => .eps
  | r :: rs => rs.foldl Rx.seq r

/-- Alternate a list of regexes in written order (leftmost preferred). -/
def altL : List Rx → Rx
  | [] => .cls (fun _ => false)
  | r :: rs => rs.foldl Rx.alt r

/-- Literal regex from a string. -/
def rlit (w : String) : Rx := .lit w.data

/-- `\s*` -/
def wsStar : Rx := .many isPySpace 0 none false

/-- One-or-more of a single character, as in `f+`. -/
def plusChar (c : Char) : Rx := .many (fun d => d == c) 1 none false

/-! ## ContentModerator (`ai_service.py` lines 14-58) -/

/-- Raw pattern text of `INAPPROPRIATE_PATTERNS[0]` (severity is derived from
this text in the source, so the raw strings are kept verbatim). -/
def rawPat1 : String := "\\b(fuck|shit|ass|bitch|dick|cock|pussy|cunt|whore|slut)\\b"

def rawPat2 : String := "\\b(f+u+c+k+|s+h+i+t+|a+s+s+)\\b"

def rawPat3 : String := "\\b(sex|porn|nude|naked|horny|cum|orgasm)\\b"

def rawPat4 : String := "\\b(send\\s*(me\\s*)?(nudes?|pics?|photos?))\\b"

def rawPat5 : String := "\\b(kill\\s*(your)?self|kys|die|murder)\\b"

def rawPat6 : String := "\\b(hate\\s*you|stupid\\s*(bot|ai)|dumb\\s*(bot|ai))\\b"

def rawPat7 : String := "(.)\\1\x7b5,\x7d"

/-- Regex for pattern 1. -/
def rxPat1 : Rx :=
  seqL [.wordB,
    .group 1 (altL (["fuck", "shit", "ass", "bitch", "dick", "cock", "pussy",
      "cunt", "whore", "slut"].map rlit)),
    .wordB]

/-- Regex for pattern 2. -/
def rxPat2 : Rx :=
  seqL [.wordB,
    .group 1 (altL
      [seqL [plusChar 'f', plusChar 'u', plusChar 'c', plusChar 'k'],
       seqL [plusChar 's', plusChar 'h', plusChar 'i', plusChar 't'],
       seqL [plusChar 'a', plusChar 's', plusChar 's']]),
    .wordB]

/-- Regex for pattern 3. -/
def rxPat3 : Rx :=
  seqL [.wordB,
    .group 1 (altL (["sex", "porn", "nude", "naked", "horny", "cum", "orgasm"].map rlit)),
    .wordB]

/-- Regex for pattern 4. -/
def rxPat4 : Rx :=
  seqL [.wordB,
    .group 1 (seqL [rlit "send", wsStar,
      .opt (.group 2 (seqL [rlit "me", wsStar])),
      .group 3 (altL
        [Rx.seq (rlit "nude") (.opt (rlit "s")),
         Rx.seq (rlit "pic") (.opt (rlit "s")),
         Rx.seq (rlit "photo") (.opt (rlit "s"))])]),
    .wordB]

/-- Regex for pattern 5. -/
def rxPat5 : Rx :=
  seqL [.wordB,
    .group 1 (altL
      [seqL [rlit "kill", wsStar, .opt (.group 2 (rlit "your")), rlit "self"],
       rlit "kys", rlit "die", rlit "murder"]),
    .wordB]

/-- Regex for pattern 6. -/
def rxPat6 : Rx :=
  seqL [.wordB,
    .group 1 (altL
      [seqL [rlit "hate", wsStar, rlit "you"],
       seqL [rlit "stupid", wsStar, .group 2 (altL [rlit "bot", rlit "ai"])],
       seqL [rlit "dumb", wsStar, .group 3 (altL [rlit "bot", rlit "ai"])]]),
    .wordB]

/-- Pattern 7, `(.)\1{5,}`: some non-newline character occurs at least six
times consecutively (the backreference repeats the captured character). -/
def hasRepeat6 : List Char → Bool
  | c0 :: c1 :: c2 :: c3 :: c4 :: c5 :: rest =>
      (c0 != '\n' && c1 == c0 && c2 == c0 && c3 == c0 && c4 == c0 && c5 == c0)
        || hasRepeat6 (c1 :: c2 :: c3 :: c4 :: c5 :: rest)
  | _ => false

/-- One entry of `ContentModerator.INAPPROPRIATE_PATTERNS`: its raw regex text
and its compiled match test over the (lowercased) message. -/
structure ModPattern where
  raw : String
  hit : List Char → Bool

/-- `ContentModerator.INAPPROPRIATE_PATTERNS`, in source order. -/
def INAPPROPRIATE_PATTERNS : List ModPattern :=
  [⟨rawPat1, fun s => (reSearch s rxPat1).isSome⟩,
   ⟨rawPat2, fun s => (reSearch s rxPat2).isSome⟩,
   ⟨rawPat3, fun s => (reSearch s rxPat3).isSome⟩,
   ⟨rawPat4, fun s => (reSearch s rxPat4).isSome⟩,
   ⟨rawPat5, fun s => (reSearch s rxPat5).isSome⟩,
   ⟨rawPat6, fun s => (reSearch s rxPat6).isSome⟩,
   ⟨rawPat7, hasRepeat6⟩]

def SEVERITY_WARN : String := "warn"

def SEVERITY_REPORT : String := "report"

/-- The severity the source derives from the raw pattern text:
`if any(word in pattern for word in ["kill","die","murder","kys"])` then
report, `elif any(word in pattern for word in ["sex","porn","nude","horny"])`
then report, else warn. -/
def sevOf (raw : String) : String :=
  if ["kill", "die", "murder", "kys"].any (fun w => containsSubS raw w) then
    SEVERITY_REPORT
  else if ["sex", "porn", "nude", "horny"].any (fun w => containsSubS raw w) then
    SEVERITY_REPORT
  else SEVERITY_WARN

/-- The loop body of `ContentModerator.check_content`: first pattern matching
the lowered message decides the outcome. -/
def check_contentAux (low : List Char) : List ModPattern → Bool × Option String × Option String
  | [] => (false, none, none)
  | p :: ps =>
      if p.hit low then (true, some (sevOf p.raw), some p.raw)
      else check_contentAux low ps

/-- `ContentModerator.check_content(message)`: the message is lowercased and
the ordered pattern list is scanned (the source also passes `re.IGNORECASE`,
a no-op on the already-lowercased text since every pattern literal is
lowercase). -/
def check_content (message : String) : Bool × Option String × Option String :=
  check_contentAux (lowerData message) INAPPROPRIATE_PATTERNS

/-- `ContentModerator.get_warning_response(severity)`.  The Python parameter
is the severity value from `check_content`; `if severity == "report"`
compares it with the report constant, anything else (including `None`) gets
the warn text, which the `Option String` comparison mirrors exactly. -/
def get_warning_response (severity : Option String) : String :=
  if severity == some SEVERITY_REPORT then
    "Your message has been flagged and reported. This incident has been logged for review.\n\nI'm happy to help you with finding artworks, planning itineraries, or navigating the website."
  else
    "Please keep our conversation respectful.\n\nLet's focus on exploring NYC public art! How can I help you today?"

/-! ## Python values and `float()` conversion -/

/-- A Python value that can reach a `float(...)` conversion in the source: a
number (modelled as a rational, the value of the float), a string, or
`None`. -/
inductive PyVal where
  | num (q : ℚ)
  | str (s : String)
  | pynone
  deriving DecidableEq, Repr

/-- Digit-run parser: accumulates value and digit count, returns the rest. -/
def takeDigitsAux (v n : Nat) : List Char → (Nat × Nat) × List Char
  | [] => ((v, n), [])
  | c :: cs =>
      if c.isDigit then takeDigitsAux (v * 10 + (c.toNat - 48)) (n + 1) cs
      else ((v, n), c :: cs)

/-- Python `float(s)` on a string: optional surrounding whitespace, optional
sign, digits with an optional fractional part (at least one digit in all),
optional exponent.  The non-finite literals (`inf`, `nan`) and PEP-515
underscores have no rational value and are modelled as failures; no claim
involves them. -/
def pyFloatParse (s : String) : Option ℚ :=
  let l := stripChars s.data
  let sgnRest : ℚ × List Char :=
    match l with
    | '+' :: t => (1, t)
    | '-' :: t => (-1, t)
    | t => (1, t)
  let ipRest := takeDigitsAux 0 0 sgnRest.2
  let fpRest : (Nat × Nat) × List Char :=
    match ipRest.2 with
    | '.' :: t => takeDigitsAux 0 0 t
    | t => ((0, 0), t)
  if ipRest.1.2 + fpRest.1.2 == 0 then none
  else
    let mant : ℚ :=
      sgnRest.1 * ((ipRest.1.1 : ℚ) + (fpRest.1.1 : ℚ) / (10 : ℚ) ^ fpRest.1.2)
    match fpRest.2 with
    | [] => some mant
    | e :: t =>
        if e == 'e' || e == 'E' then
          let esgnRest : ℤ × List Char :=
            match t with
            | '+' :: u => (1, u)
            | '-' :: u => (-1, u)
            | u => (1, u)
          let evRest := takeDigitsAux 0 0 esgnRest.2
          if evRest.1.2 == 0 || !evRest.2.isEmpty then none
          else some (mant * (10 : ℚ) ^ (esgnRest.1 * (evRest.1.1 : ℤ)))
        else none

/-- Python `float(v)`: succeeds on numbers, parses strings, raises (`none`)
on `None` and unparsable strings. -/
def floatOf : PyVal → Option ℚ
  | .num q => some q
  | .str s => pyFloatParse s
  | .pynone => none

/-- Python truthiness of the values above: `0`, `0.0`, `""` and `None` are
falsy, everything else truthy. -/
def pyTruthy : PyVal → Bool
  | .num q => q != 0
  | .str s => s != ""
  | .pynone => false

/-- Python `a or b` over optional dict lookups: `a` when truthy, else `b`
(an absent key, `none`, is falsy). -/
def pyOr (a b : Option PyVal) : Option PyVal :=
  match a with
  | some v => if pyTruthy v then some v else b
  | none => b

/-- Python `x or default` on an optional text field (`None` and `""` both
fall back to the default). -/
def orDefault (v : Option String) (d : String) : String :=
  match v with
  | some s => if s == "" then d else s
  | none => d

/-! ## Artwork data model (`loc_detail.models.PublicArt`, read-only) -/

/-- A stored `PublicArt` row as the chatbot reads it.  `latitude`/`longitude`
are `none` when NULL in the database (the `isnull` filters), and otherwise
carry a `PyVal` so that a malformed stored coordinate (a non-numeric string)
is representable. -/
structure StoredArt where
  id : Nat
  title : Option String := none
  artist_name : Option String := none
  location : Option String := none
  borough : Option String := none
  medium : Option String := none
  latitude : Option PyVal := none
  longitude : Option PyVal := none
  deriving DecidableEq, Repr

/-- An artwork projection dict as built by the query helpers.  `medium` is
present only for `search_artworks` results, `distance` only for
`get_nearby_artworks` results. -/
structure ArtProj where
  id : Nat
  title : String
  artist : String
  location : String
  borough : String
  medium : Option String := none
  distance : Option ℝ := none
  latitude : Option ℝ := none
  longitude : Option ℝ := none

/-- Django `field__icontains=q`: case-insensitive containment; a NULL field
never matches. -/
def icontainsField (field : Option String) (q : String) : Bool :=
  match field with
  | some v => containsSub (lowerData q) (lowerData v)
  | none => false

/-! ## GeoDistance (`calculate_distance`, lines 229-240) -/

/-- Python `math.radians`. -/
noncomputable def radiansR (x : ℝ) : ℝ := x * Real.pi / 180

/-- Python `math.atan2(y, x)` over the reals. -/
noncomputable def atan2R (y x : ℝ) : ℝ :=
  if 0 < x then Real.arctan (y / x)
  else if x < 0 then
    (if 0 ≤ y then Real.arctan (y / x) + Real.pi else Real.arctan (y / x) - Real.pi)
  else if 0 < y then Real.pi / 2
  else if y < 0 then -(Real.pi / 2)
  else 0

/-- `ArtineraryAI.calculate_distance`: haversine distance in miles with
Earth radius 3959, floats embedded as reals. -/
noncomputable def calculate_distance (lat1 lon1 lat2 lon2 : ℝ) : ℝ :=
  let R : ℝ := 3959
  let lat1_rad := radiansR lat1
  let lat2_rad := radiansR lat2
  let delta_lat := radiansR (lat2 - lat1)
  let delta_lon := radiansR (lon2 - lon1)
  let a := Real.sin (delta_lat / 2) ^ 2 +
    Real.cos lat1_rad * Real.cos lat2_rad * Real.sin (delta_lon / 2) ^ 2
  let c := 2 * atan2R (Real.sqrt a) (Real.sqrt (1 - a))
  R * c

/-- Python `round(x, 2)` over the reals (nearest multiple of 1/100; the
half-to-even float tie rule only differs at exact midpoints, which no claim
depends on). -/
noncomputable def round2 (x : ℝ) : ℝ := (round (x * 100) : ℤ) / 100

/-! ## `get_nearby_artworks` (lines 242-280) -/

/-- Sort key of the `nearby.sort(key=lambda x: x["distance"])` call: the
stored (rounded) distance; every item built by the scan carries one. -/
noncomputable def distKey (a : ArtProj) : ℝ := a.distance.getD 0

/-- The comparison `nearby.sort` orders by. -/
def distLE (a b : ArtProj) : Prop := distKey a ≤ distKey b

noncomputable instance : DecidableRel distLE :=
  fun a b => inferInstanceAs (Decidable (distKey a ≤ distKey b))

instance : IsTotal ArtProj distLE := ⟨fun a b => le_total (distKey a) (distKey b)⟩

instance : IsTrans ArtProj distLE := ⟨fun _ _ _ h1 h2 => le_trans h1 h2⟩

/-- Body of the proximity scan for one artwork row: convert the stored
coordinates, compute the distance, keep the row when within the radius.  Any
conversion failure (`float` raising) makes the row contribute nothing — the
source's `except Exception: continue`. -/
noncomputable def nearbyItem (ulat ulon radius_miles : ℝ) (art : StoredArt) : Option ArtProj :=
  match art.latitude, art.longitude with
  | some plat, some plon =>
      match floatOf plat, floatOf plon with
      | some alat, some alon =>
          let distance := calculate_distance ulat ulon (alat : ℝ) (alon : ℝ)
          if distance ≤ radius_miles then
            some { id := art.id,
                   title := orDefault art.title "Untitled",
                   artist := orDefault art.artist_name "Unknown",
                   location := orDefault art.location "Location not specified",
                   borough := orDefault art.borough "",
                   distance := some (round2 distance),
                   latitude := some (alat : ℝ),
                   longitude := some (alon : ℝ) }
          else none
      | _, _ => none
  | _, _ => none

/-- `ArtineraryAI.get_nearby_artworks`: convert the user coordinates
(returning `[]` on failure), scan the rows whose stored coordinates are
non-NULL, sort ascending by the stored distance (CPython's stable sort
modelled by insertion sort; the claims depend only on the ordering), and
truncate to `limit`. -/
noncomputable def get_nearby_artworks (arts : List StoredArt) (user_lat user_lon : PyVal)
    (limit : Nat := 5) (radius_miles : ℝ := 2) : List ArtProj :=
  match floatOf user_lat, floatOf user_lon with
  | some la, some lo =>
      let eligible := arts.filter (fun a => a.latitude.isSome && a.longitude.isSome)
      let nearby := eligible.filterMap (nearbyItem (la : ℝ) (lo : ℝ) radius_miles)
      (List.insertionSort distLE nearby).take limit
  | _, _ => []

/-! ## Text search queries (lines 282-342) -/

/-- `float(art.latitude) if art.latitude else None` in the projection
comprehensions (a falsy stored value projects to `None`; a conversion
failure, which would raise in Python, contributes `none` — no claim
exercises that corner). -/
noncomputable def projLatLon : Option PyVal → Option ℝ
  | some pv => if pyTruthy pv then (floatOf pv).map (fun q => (q : ℝ)) else none
  | none => none

/-- `ArtineraryAI.search_artworks`: OR of case-insensitive containment over
title, artist, location, borough and medium, sliced to `limit` before
projection. -/
def search_artworks (arts : List StoredArt) (query : String) (limit : Nat := 10) :
    List ArtProj :=
  ((arts.filter (fun a =>
      icontainsField a.title query || icontainsField a.artist_name query ||
      icontainsField a.location query || icontainsField a.borough query ||
      icontainsField a.medium query)).take limit).map (fun art =>
    { id := art.id,
      title := orDefault art.title "Untitled",
      artist := orDefault art.artist_name "Unknown",
      location := orDefault art.location "Location not specified",
      borough := orDefault art.borough "",
      medium := some (orDefault art.medium "") })

/-- `ArtineraryAI.search_artworks_by_location`: location or borough
containment, coordinates present. -/
noncomputable def search_artworks_by_location (arts : List StoredArt)
    (location_query : String) (limit : Nat := 6) : List ArtProj :=
  ((arts.filter (fun a =>
      (icontainsField a.location location_query || icontainsField a.borough location_query)
        && a.latitude.isSome && a.longitude.isSome)).take limit).map (fun art =>
    { id := art.id,
      title := orDefault art.title "Untitled",
      artist := orDefault art.artist_name "Unknown",
      location := orDefault art.location "Location not specified",
      borough := orDefault art.borough "",
      latitude := projLatLon art.latitude,
      longitude := projLatLon art.longitude })

/-- `ArtineraryAI.get_artworks_by_borough`. -/
noncomputable def get_artworks_by_borough (arts : List StoredArt) (borough : String)
    (limit : Nat := 6) : List ArtProj :=
  ((arts.filter (fun a =>
      icontainsField a.borough borough && a.latitude.isSome && a.longitude.isSome)).take
    limit).map (fun art =>
    { id := art.id,
      title := orDefault art.title "Untitled",
      artist := orDefault art.artist_name "Unknown",
      location := orDefault art.location "Location not specified",
      borough := orDefault art.borough "",
      latitude := projLatLon art.latitude,
      longitude := projLatLon art.longitude })

/-! ## LocationExtractor (`extract_location_from_message`, lines 344-519) -/

/-- Tag of a location match. -/
inductive LocType where
  | borough
  | neighborhood
  deriving DecidableEq, Repr

/-- The `{"type": ..., "value": ...}` dict returned by extraction. -/
structure LocMatch where
  type : LocType
  value : String
  deriving DecidableEq, Repr

/-- The `boroughs` dict, in insertion order. -/
def boroughs : List (String × String) :=
  [("manhattan", "Manhattan"), ("brooklyn", "Brooklyn"), ("queens", "Queens"),
   ("bronx", "Bronx"), ("staten island", "Staten Island")]

/-- Stage 1: borough names by case-insensitive substring, first match wins. -/
def extractBorough (message_lower : String) : Option LocMatch :=
  (boroughs.find? (fun kv => containsSubS message_lower kv.1)).map
    (fun kv => ⟨.borough, kv.2⟩)

/-- The `neighborhoods` list, verbatim and in order. -/
def neighborhoods : List String :=
  ["central park", "times square", "soho", "tribeca", "chelsea", "harlem",
   "williamsburg", "dumbo", "astoria", "flushing", "greenpoint", "bushwick",
   "prospect park", "battery park", "high line", "midtown", "downtown", "uptown",
   "east village", "west village", "lower east side", "upper west side",
   "upper east side", "columbus circle", "union square", "washington square",
   "bryant park", "rockefeller", "lincoln center", "wall street", "chinatown",
   "little italy", "greenwich village", "financial district", "meatpacking",
   "flatiron", "gramercy", "murray hill", "hell's kitchen", "long island city",
   "red hook", "park slope", "cobble hill", "fort greene", "bed stuy",
   "crown heights", "sunset park", "broadway", "5th avenue", "fifth avenue",
   "herald square", "madison square", "nolita", "noho"]

/-- Stage 2: neighborhood phrases by substring, first match wins. -/
def extractNeighborhood (message_lower : String) : Option LocMatch :=
  (neighborhoods.find? (fun n => containsSubS message_lower n)).map
    (fun n => ⟨.neighborhood, n⟩)

/-- The suffix alternation of the street pattern, in written order. -/
def streetSuffixes : List String :=
  ["st", "street", "ave", "avenue", "blvd", "boulevard", "rd", "road", "way",
   "place", "ln", "lane"]

/-- `\b(\w+)\s+(st|street|ave|avenue|blvd|boulevard|rd|road|way|place|ln|lane)\b` -/
def rxStreet : Rx :=
  seqL [.wordB, .group 1 (.many isWordChar 1 none false),
    .many isPySpace 1 none false,
    .group 2 (altL (streetSuffixes.map rlit)), .wordB]

/-- Stage 3: the street pattern; on a match the whole matched text
(`group(0)`) is the value. -/
def extractStreet (message_lower : String) : Option LocMatch :=
  match reSearch message_lower.data rxStreet with
  | some (start, st) =>
      some ⟨.neighborhood, String.mk (sliceChars message_lower.data start st.pos)⟩
  | none => none

/-- The suffix alternation of the place pattern, in written order. -/
def placeSuffixes : List String :=
  ["square", "park", "plaza", "garden", "gardens", "circle", "center"]

/-- `\b([\w\s]+?)\s*(square|park|plaza|garden|gardens|circle|center)\b` -/
def rxPlace : Rx :=
  seqL [.wordB,
    .group 1 (.many (fun c => isWordChar c || isPySpace c) 1 none true),
    wsStar, .group 2 (altL (placeSuffixes.map rlit)), .wordB]

/-- The `skip_words` list of the place pattern stage. -/
def placeSkipWords : List String :=
  ["the", "a", "an", "in", "at", "on", "near", "around", "any", "show", "find",
   "art", "artworks", "artwork", "what", "where", "is", "are", "me", "to"]

/-- Stage 4: the place pattern; the whole match is stripped, its words
filtered against `skip_words`, and the rejoined text returned when non-empty
and longer than 3 characters (otherwise this stage yields nothing and
evaluation falls through). -/
def extractPlace (message_lower : String) : Option LocMatch :=
  match reSearch message_lower.data rxPlace with
  | some (start, st) =>
      let full := stripWsS (String.mk (sliceChars message_lower.data start st.pos))
      let cleaned := (splitWs full).filter (fun w => !placeSkipWords.contains w)
      if !cleaned.isEmpty then
        let cleanedMatch := joinSpace cleaned
        if cleanedMatch.length > 3 then some ⟨.neighborhood, cleanedMatch⟩ else none
      else none
  | none => none

/-- `\b(?:near|in|at|around|by)\s+([a-z\s]{3,30}?)(?:\?|$|,|\.|\!)` -/
def rxPrep : Rx :=
  seqL [.wordB, altL (["near", "in", "at", "around", "by"].map rlit),
    .many isPySpace 1 none false,
    .group 1 (.many (fun c => c.isLower || isPySpace c) 3 (some 30) true),
    altL [.cls (fun c => c == '?'), .eos, .cls (fun c => c == ','),
      .cls (fun c => c == '.'), .cls (fun c => c == '!')]]

/-- The `non_locations` list of the prepositional stage. -/
def prepNonLocations : List String :=
  ["me", "here", "this", "that", "the", "area", "my location", "my", "i", "we",
   "you", "there", "it"]

/-- Stage 5: the prepositional pattern; the captured phrase is stripped and
accepted only when it is not a non-location filler, longer than 2
characters, and some artwork's location contains it
(`PublicArt.objects.filter(location__icontains=...).exists()`). -/
def extractPrep (arts : List StoredArt) (message_lower : String) : Option LocMatch :=
  match reSearch message_lower.data rxPrep with
  | some (_, st) =>
      match capSpan st.caps 1 with
      | some (a, b) =>
          let potential := stripWsS (String.mk (sliceChars message_lower.data a b))
          if !prepNonLocations.contains potential && potential.length > 2 then
            if arts.any (fun art => icontainsField art.location potential) then
              some ⟨.neighborhood, potential⟩
            else none
          else none
      | none => none
  | none => none

/-- The `skip_phrases` denylist of the sliding-window fallback. -/
def fallbackSkipPhrases : List String :=
  ["show me", "find me", "any art", "public art", "what is", "where is",
   "can you", "i want", "artworks near", "artworks in", "art near", "art in"]

/-- The `n`-word windows of the word list, left to right (`range(len(words)
- n + 1)`, which is empty when there are fewer than `n` words). -/
def windowPhrases (ws : List String) (n : Nat) : List String :=
  if ws.length < n then []
  else (List.range (ws.length - n + 1)).map (fun i => joinSpace ((ws.drop i).take n))

/-- First defined value of `f` over a list, in order (the `for`/`return`
pattern of the fallback loops). -/
def findSomeL {α β : Type} (f : α → Option β) : List α → Option β
  | [] => none
  | a :: as =>
      match f a with
      | some b => some b
      | none => findSomeL f as

/-- One pass of the fallback with window size `n`. -/
def extractFallbackN (arts : List StoredArt) (ws : List String) (n : Nat) :
    Option LocMatch :=
  findSomeL (fun phrase =>
    if fallbackSkipPhrases.contains phrase then none
    else if arts.any (fun art => icontainsField art.location phrase) then
      some ⟨.neighborhood, phrase⟩
    else none) (windowPhrases ws n)

/-- Stage 6: the repository-confirmed sliding-window fallback, 3-word
windows then 2-word windows. -/
def extractFallback (arts : List StoredArt) (message_lower : String) : Option LocMatch :=
  (extractFallbackN arts (splitWs message_lower) 3).orElse
    (fun _ => extractFallbackN arts (splitWs message_lower) 2)

/-- `ArtineraryAI.extract_location_from_message`: the six strategies in
source order, each `return` short-circuiting the rest. -/
def extract_location_from_message (arts : List StoredArt) (message : String) :
    Option LocMatch :=
  let message_lower := String.mk (lowerData message)
  match extractBorough message_lower with
  | some m => some m
  | none =>
  match extractNeighborhood message_lower with
  | some m => some m
  | none =>
  match extractStreet message_lower with
  | some m => some m
  | none =>
  match extractPlace message_lower with
  | some m => some m
  | none =>
  match extractPrep arts message_lower with
  | some m => some m
  | none => extractFallback arts message_lower

/-- First defined value of a list of optional results, in order. -/
def firstSome {α : Type} : List (Option α) → Option α
  | [] => none
  | o :: os => o.orElse (fun _ => firstSome os)

/-! ## Markdown cleanup (`generate_ai_response` post-processing) -/

/-- Non-overlapping left-to-right `re.sub`: copy up to the leftmost match,
emit the replacement (which may use group 1), continue after the match.
Every pattern the source substitutes consumes at least one character; the
fuel covers the whole subject. -/
def reSubAllAux (s : List Char) (r : Rx)
    (repl : List Char → Option (List Char) → List Char) : Nat → Nat → List Char
  | _, 0 => []
  | i, fuel + 1 =>
      match searchAux s r i (s.length + 1 - i) with
      | some (start, st) =>
          if st.pos ≤ start then s.drop i
          else
            sliceChars s i start ++
              repl (sliceChars s start st.pos)
                ((capSpan st.caps 1).map (fun ab => sliceChars s ab.1 ab.2)) ++
              reSubAllAux s r repl st.pos fuel
      | none => s.drop i

/-- `re.sub(pattern, repl, s)` (with MULTILINE `^` resolved against the
original subject via absolute positions). -/
def reSubAll (r : Rx) (repl : List Char → Option (List Char) → List Char)
    (s : List Char) : List Char :=
  reSubAllAux s r repl 0 (s.length + 1)

/-- `\*\*([^*]+)\*\*` -/
def rxBold : Rx :=
  seqL [rlit "**", .group 1 (.many (fun c => c != '*') 1 none false), rlit "**"]

/-- `\*([^*]+)\*` -/
def rxItal : Rx :=
  seqL [rlit "*", .group 1 (.many (fun c => c != '*') 1 none false), rlit "*"]

/-- `^#+\s*` with MULTILINE. -/
def rxHeader : Rx := seqL [.bol, .many (fun c => c == '#') 1 none false, wsStar]

/-- `^\*\s+` with MULTILINE. -/
def rxBullet1 : Rx := seqL [.bol, rlit "*", .many isPySpace 1 none false]

/-- `^-\s+` with MULTILINE. -/
def rxBullet2 : Rx := seqL [.bol, rlit "-", .many isPySpace 1 none false]

/-- The cleanup chain of `generate_ai_response`: strip, unwrap bold and
italic emphasis, drop leading header markers, turn leading `*`/`-` bullets
into a bullet glyph. -/
def clean_response (t : String) : String :=
  let c0 := stripChars t.data
  let c1 := reSubAll rxBold (fun _ g1 => g1.getD []) c0
  let c2 := reSubAll rxItal (fun _ g1 => g1.getD []) c1
  let c3 := reSubAll rxHeader (fun _ _ => []) c2
  let c4 := reSubAll rxBullet1 (fun _ _ => "• ".data) c3
  let c5 := reSubAll rxBullet2 (fun _ _ => "• ".data) c4
  String.mk c5

/-! ## LLMResponder (`__init__` model state, `_try_generate_with_fallback`) -/

/-- The process-wide LLM selection state: `current_model_name` (`none` when
no model could be initialised, in which case `self.model` is `None` too) and
`available_models`. -/
structure LLMState where
  current : Option String
  available : List String
  deriving DecidableEq, Repr

/-- Outcome of one `model.generate_content(prompt)` call: a response whose
`.text` is the given string (possibly empty, which the source treats as a
failure), or a raised exception with the given message (rate-limit errors
carry `429`/`quota` in the text; the source retries past every exception
class, logging them differently). -/
inductive GenResult where
  | ok (text : String)
  | err (msg : String)
  deriving DecidableEq, Repr

/-- The fallback loop of `_try_generate_with_fallback`: iterate the
remaining candidates in catalog order, skipping tried ones; the first model
returning non-empty text wins, every failure (exception or empty text)
moves on. -/
def fbLoop (gen : String → String → GenResult) (prompt : String)
    (tried : List String) : List String → Option (String × String)
  | [] => none
  | m :: ms =>
      if tried.contains m then fbLoop gen prompt tried ms
      else
        match gen m prompt with
        | .ok t => if t == "" then fbLoop gen prompt (m :: tried) ms else some (t, m)
        | .err _ => fbLoop gen prompt (m :: tried) ms

/-- `ArtineraryAI._try_generate_with_fallback` (the leading underscore is
dropped for Lean): try the current model, then the remaining candidates; on
a fallback success the process-wide selection switches to that model; when
everything fails, return `None` with the state unchanged. -/
def try_generate_with_fallback (gen : String → String → GenResult)
    (st : LLMState) (prompt : String) : Option String × LLMState :=
  let tried : List String := match st.current with
    | some m => [m]
    | none => []
  let firstTry : Option String := match st.current with
    | some m =>
        match gen m prompt with
        | .ok t => if t == "" then none else some t
        | .err _ => none
    | none => none
  match firstTry with
  | some t => (some t, st)
  | none =>
      match fbLoop gen prompt tried st.available with
      | some (t, m) => (some t, { st with current := some m })
      | none => (none, st)

/-! ## `generate_ai_response`, `_get_smart_fallback`, `get_nearby_places_info` -/

/-- The chatbot user (`user.first_name`, `user.username`). -/
structure ChatUser where
  first_name : String
  username : String
  deriving DecidableEq, Repr

/-- The `system_context` f-string of `generate_ai_response`, with the
optional `\nContext: ...` suffix. -/
def ai_system_context (username : String) (context : Option String) : String :=
  "You are ArtBot, a friendly NYC public art guide assistant.\nUser's name: "
    ++ username ++
    "\n\nKey website features:\n- Interactive Map: View all artworks on a map at /artinerary/\n- Browse Artworks: Search and filter artworks at /loc_detail/\n- Events: Art events and meetups at /events/\n- Favorites: Save artworks at /favorites/\n- Itineraries: Plan art tours at /itineraries/\n\nKeep responses concise, friendly, and helpful.\nFocus on NYC public art but be conversational.\nDon't use markdown formatting like ** or ##."
    ++ (match context with
        | some c => "\nContext: " ++ c
        | none => "")

/-- The full prompt `generate_ai_response` sends. -/
def ai_prompt (message : String) (user : ChatUser) (context : Option String) : String :=
  let username := if user.first_name == "" then user.username else user.first_name
  ai_system_context username context ++ "\n\nUser: " ++ message ++ "\nArtBot:"

/-- `ArtineraryAI._get_smart_fallback`: the deterministic keyword-keyed
canned responses, checked in source order. -/
def get_smart_fallback (message : String) : String :=
  let ml := String.mk (lowerData message)
  if ["map", "where", "location", "find"].any (fun w => containsSubS ml w) then
    "You can explore all NYC public artworks on our Interactive Map! It shows artwork locations across all five boroughs. Would you like me to take you there?"
  else if ["event", "attend", "join"].any (fun w => containsSubS ml w) then
    "You can browse art events, join community tours, or create your own meetups on the Events page. It's a great way to explore art with others! Want me to show you the events?"
  else if ["favorite", "saved", "liked"].any (fun w => containsSubS ml w) then
    "Your favorites are artworks you've saved by clicking the heart icon. You can view all your saved artworks in My Favorites. Would you like to see them?"
  else if ["profile", "account"].any (fun w => containsSubS ml w) then
    "In your profile, you can update your info, change your picture, and add a bio. Would you like to edit your profile?"
  else if ["itinerary", "tour", "route", "plan"].any (fun w => containsSubS ml w) then
    "You can create custom art tour itineraries! Add artworks, arrange your stops, and save routes. Tell me an area and I can suggest artworks to include."
  else if ["dashboard", "home"].any (fun w => containsSubS ml w) then
    "Your dashboard shows your activity, recent itineraries, and personalized recommendations. Would you like to go to your dashboard?"
  else if ["message", "chat", "inbox"].any (fun w => containsSubS ml w) then
    "You can message other art enthusiasts, discuss artworks, and plan meetups together. Would you like to see your messages?"
  else if ["visit", "places", "where", "what can i", "suggestions"].any
      (fun w => containsSubS ml w) then
    "I can help you discover NYC public art! Try asking about a specific area like 'Show me art in Central Park' or 'What's in Brooklyn?' You can also explore our interactive map."
  else if ["help", "what can you"].any (fun w => containsSubS ml w) then
    "I'm here to help you explore NYC public art! You can ask me about artworks in specific areas, website features like the map or events, or how to plan an art tour. What interests you?"
  else
    "I'm here to help you explore NYC public art! You can ask me about artworks in specific areas, website features like the map or events, or how to plan an art tour. What interests you?"

/-- `ArtineraryAI.generate_ai_response`: build the prompt, try the LLM with
fallback, clean the markdown on success, otherwise return the smart
fallback.  Exceptions never escape: every provider failure is a value. -/
def generate_ai_response (gen : String → String → GenResult) (st : LLMState)
    (message : String) (user : ChatUser) (context : Option String := none) :
    String × LLMState :=
  match try_generate_with_fallback gen st (ai_prompt message user context) with
  | (some t, st2) => (clean_response t, st2)
  | (none, st2) => (get_smart_fallback message, st2)

/-- The prompt of `get_nearby_places_info`. -/
def places_prompt (location_name : String) : String :=
  "Suggest 2-3 popular restaurants or cafes near " ++ location_name ++
    " in NYC.\nFormat each as: • Name (Type) - Address or cross street\nKeep it brief, no extra text. Just the list.\nExample format:\n• Joe's Pizza (Pizzeria) - Carmine St\n• Blue Ribbon (American) - Sullivan St"

/-- `ArtineraryAI.get_nearby_places_info`: `None` when no model and no
candidates, otherwise the stripped generation result (or `None`). -/
def get_nearby_places_info (gen : String → String → GenResult) (st : LLMState)
    (location_name : String) : Option String × LLMState :=
  if st.current == none && st.available.isEmpty then (none, st)
  else
    match try_generate_with_fallback gen st (places_prompt location_name) with
    | (some t, st2) => (some (stripWsS t), st2)
    | (none, st2) => (none, st2)

/-! ## Website pages and page-intent detection (lines 120-182, 543-610) -/

/-- One entry of `website_pages`. -/
structure PageInfo where
  url : String
  name : String
  description : String
  deriving DecidableEq, Repr

/-- `self.website_pages`, in insertion order. -/
def website_pages : List (String × PageInfo) :=
  [("map", ⟨"/artinerary/", "Interactive Map",
     "Shows all NYC public artworks on an interactive map. Click markers to see details, filter by borough."⟩),
   ("artworks", ⟨"/loc_detail/", "Browse Artworks",
     "Browse and search all public artworks. Filter by artist, location, or type."⟩),
   ("events", ⟨"/events/", "Events",
     "Browse art events, join community tours, or create your own art meetups."⟩),
   ("itineraries", ⟨"/itineraries/", "My Itineraries",
     "View and manage your saved art tour itineraries. Create new custom routes."⟩),
   ("favorites", ⟨"/favorites/", "My Favorites",
     "View artworks you've saved to favorites. Add artworks by clicking the heart icon."⟩),
   ("profile", ⟨"/profile/", "My Profile",
     "View and edit your profile, update settings."⟩),
   ("dashboard", ⟨"/dashboard/", "Dashboard",
     "Your personalized dashboard with recent activity and recommendations."⟩),
   ("messages", ⟨"/messages/", "Messages",
     "Chat with other art enthusiasts, share discoveries, plan meetups."⟩)]

/-- `ArtineraryAI.get_navigation_info`. -/
def get_navigation_info (page_key : String) : Option PageInfo :=
  (website_pages.find? (fun kv => kv.1 == page_key)).map (fun kv => kv.2)

/-- The `page_keywords` dict of `detect_page_intent`, in insertion order. -/
def page_keywords : List (String × List String) :=
  [("map", ["map", "interactive map", "see map", "view map", "where is map"]),
   ("artworks", ["browse artwork", "see artwork", "view artwork", "all artwork",
     "browse art", "see art"]),
   ("events", ["event", "events", "attend", "meetup", "gathering"]),
   ("itineraries", ["itinerary", "itineraries", "my tour", "my route", "saved tour"]),
   ("favorites", ["favorite", "favorites", "my favorite", "saved artwork", "liked",
     "my saved"]),
   ("profile", ["profile", "my profile", "edit profile", "account", "my account"]),
   ("dashboard", ["dashboard", "home page", "main page"]),
   ("messages", ["message", "messages", "chat with user", "dm", "inbox"])]

/-- `ArtineraryAI.detect_page_intent`: first page whose keyword list has a
substring hit. -/
def detect_page_intent (message : String) : Option String :=
  let ml := String.mk (lowerData message)
  (page_keywords.find? (fun kv => kv.2.any (fun k => containsSubS ml k))).map
    (fun kv => kv.1)

/-- The dining/nightlife keyword list of `check_for_nearby_places_query`. -/
def place_keywords : List String :=
  ["restaurant", "restaurants", "food", "eat", "dining", "bar", "bars", "drink",
   "drinks", "pub", "cafe", "coffee", "entertainment", "nightlife", "club"]

/-- `ArtineraryAI.check_for_nearby_places_query`: a dining keyword plus a
successful location extraction. -/
def check_for_nearby_places_query (arts : List StoredArt) (message : String) :
    Bool × Option String :=
  let ml := String.mk (lowerData message)
  if place_keywords.any (fun kw => containsSubS ml kw) then
    match extract_location_from_message arts message with
    | some li => (true, some li.value)
    | none => (false, none)
  else (false, none)

/-! ## IntentRouter / `process_message` (lines 760-992)

External calls are recorded as events: `modLog` the moderation audit log,
`db` an artwork-table query, `extractLoc` a call into
`extract_location_from_message` (whose stages 5-6 issue repository
existence queries), `llm` a call into the LLM-backed helpers
(`generate_ai_response` / `get_nearby_places_info`). -/

/-- Trace events for external calls. -/
inductive Ev where
  | modLog
  | db
  | extractLoc
  | llm
  deriving DecidableEq, Repr

/-- The metadata dict of a response; `none` models an absent key. -/
structure Metadata where
  content_warning : Option Bool := none
  severity : Option String := none
  artworks : Option (List ArtProj) := none
  show_map : Option Bool := none
  show_itinerary_prompt : Option Bool := none
  suggested_locations : Option (List Nat) := none
  navigation : Option PageInfo := none
  request_location : Option Bool := none

/-- The `response_data` dict. -/
structure Response where
  message : String
  metadata : Metadata

/-- The optional user-location dict: any of the `lat`/`lng`/`latitude`/
`longitude` keys may be absent. -/
structure UserLoc where
  lat : Option PyVal := none
  lng : Option PyVal := none
  latitude : Option PyVal := none
  longitude : Option PyVal := none
  deriving DecidableEq, Repr

/-- `lat = user_location.get("lat") or user_location.get("latitude")`
(with `lat = None` when no location dict was given). -/
def effLat : Option UserLoc → Option PyVal
  | some l => pyOr l.lat l.latitude
  | none => none

/-- `lng = user_location.get("lng") or user_location.get("longitude")`. -/
def effLng : Option UserLoc → Option PyVal
  | some l => pyOr l.lng l.longitude
  | none => none

/-- The `nearby_keywords` list of step 2. -/
def nearby_keywords : List String :=
  ["nearby", "near me", "around me", "close by", "close to me", "closest", "nearest"]

/-- Step 2 of `process_message` (nearby request, terminal): with both
effective coordinates truthy, run the proximity query and answer with the
results or a browse-the-map suggestion; otherwise ask for location
sharing. -/
noncomputable def stepNearby (arts : List StoredArt) (user_location : Option UserLoc) :
    Response × List Ev :=
  match effLat user_location, effLng user_location with
  | some lav, some lnv =>
      if pyTruthy lav && pyTruthy lnv then
        let nearby := get_nearby_artworks arts lav lnv 5 2
        if nearby.isEmpty then
          ({ message := "No artworks found within 2 miles of your location. Try exploring the map or searching for a nearby area!",
             metadata := { navigation := get_navigation_info "map" } }, [Ev.db])
        else
          ({ message := "Found " ++ toString nearby.length ++ " artworks near you!",
             metadata :=
               { artworks := some nearby, show_map := some true,
                 show_itinerary_prompt := some true,
                 suggested_locations := some (nearby.map ArtProj.id) } }, [Ev.db])
      else
        ({ message := "I'd love to show you nearby artworks! Please enable location sharing or tell me what area you'd like to explore.",
           metadata := { request_location := some true } }, [])
  | _, _ =>
      ({ message := "I'd love to show you nearby artworks! Please enable location sharing or tell me what area you'd like to explore.",
         metadata := { request_location := some true } }, [])

/-- Step 10: everything else goes to the LLM (with the smart fallback
behind it). -/
noncomputable def step10 (gen : String → String → GenResult) (st : LLMState)
    (message : String) (user : ChatUser) (acc : List Ev) : Response × List Ev :=
  ({ message := (generate_ai_response gen st message user none).1, metadata := {} },
    acc ++ [Ev.llm])

/-- Step 9: thanks keywords. -/
noncomputable def step9 (gen : String → String → GenResult) (st : LLMState)
    (message : String) (user : ChatUser) (message_lower : String) (acc : List Ev) :
    Response × List Ev :=
  if ["thank", "thanks", "thx", "appreciate"].any
      (fun w => containsSubS message_lower w) then
    ({ message := "You're welcome! Happy to help you explore NYC's amazing public art. Let me know if you need anything else!",
       metadata := {} }, acc)
  else step10 gen st message user acc

/-- The exact-greeting list of step 8. -/
def greetings : List String := ["hi", "hello", "hey", "hi!", "hello!", "hey!"]

/-- Step 8: exact greetings, answered with the user's first name or
username. -/
noncomputable def step8 (gen : String → String → GenResult) (st : LLMState)
    (message : String) (user : ChatUser) (message_lower : String) (acc : List Ev) :
    Response × List Ev :=
  if greetings.contains (stripWsS message_lower) then
    ({ message := "Hello " ++
         (if user.first_name == "" then user.username else user.first_name) ++
         "! I'm ArtBot, your NYC public art guide.\n\nI can help you find artworks, explore the map, browse events, or plan an art tour. What would you like to do?",
       metadata := {} }, acc)
  else step9 gen st message user message_lower acc

/-- The `search_indicators` list of step 7. -/
def search_indicators : List String :=
  ["find artwork", "search for", "look for", "show me artwork", "any artwork"]

/-- Step 7: explicit artwork search; empty search terms or an empty result
fall through to the later steps. -/
noncomputable def step7 (arts : List StoredArt) (gen : String → String → GenResult)
    (st : LLMState) (message : String) (user : ChatUser) (message_lower : String)
    (acc : List Ev) : Response × List Ev :=
  if search_indicators.any (fun i => containsSubS message_lower i) then
    let search_terms := stripWsS (String.mk
      (search_indicators.foldl (fun s i => removeAllSub i.data s) message_lower.data))
    if search_terms != "" then
      let results := search_artworks arts search_terms 10
      if !results.isEmpty then
        ({ message := "Found " ++ toString results.length ++ " artworks for '" ++
             search_terms ++ "'!",
           metadata :=
             { artworks := some results, show_itinerary_prompt := some true,
               suggested_locations := some (results.map ArtProj.id) } }, acc ++ [Ev.db])
      else step8 gen st message user message_lower (acc ++ [Ev.db])
    else step8 gen st message user message_lower acc
  else step8 gen st message user message_lower acc

/-- The imperative-phrase list of step 6. -/
def nav_imperatives : List String :=
  ["go to", "take me", "open", "navigate to", "show me the"]

/-- Step 6: explicit navigation — an imperative plus a page key or page
display name in the message. -/
noncomputable def step6 (arts : List StoredArt) (gen : String → String → GenResult)
    (st : LLMState) (message : String) (user : ChatUser) (message_lower : String)
    (acc : List Ev) : Response × List Ev :=
  if nav_imperatives.any (fun w => containsSubS message_lower w) then
    match website_pages.find? (fun kv =>
        containsSubS message_lower kv.1 ||
        containsSubS message_lower (String.mk (lowerData kv.2.name))) with
    | some kv =>
        ({ message := "Taking you to " ++ kv.2.name ++ "! " ++ kv.2.description,
           metadata := { navigation := some kv.2 } }, acc)
    | none => step7 arts gen st message user message_lower acc
  else step7 arts gen st message user message_lower acc

/-- Step 5: website-page queries answered contextually via the LLM. -/
noncomputable def step5 (arts : List StoredArt) (gen : String → String → GenResult)
    (st : LLMState) (message : String) (user : ChatUser) (message_lower : String)
    (acc : List Ev) : Response × List Ev :=
  match detect_page_intent message with
  | some pk =>
      match get_navigation_info pk with
      | some pi =>
          ({ message := (generate_ai_response gen st message user (some ("page_" ++ pk))).1,
             metadata := { navigation := some pi } }, acc ++ [Ev.llm])
      | none => step6 arts gen st message user message_lower acc
  | none => step6 arts gen st message user message_lower acc

/-- Step 4: location/neighborhood queries (terminal when extraction
succeeds). -/
noncomputable def step4 (arts : List StoredArt) (gen : String → String → GenResult)
    (st : LLMState) (message : String) (user : ChatUser) (message_lower : String)
    (acc : List Ev) : Response × List Ev :=
  match extract_location_from_message arts message with
  | some li =>
      let artworks := if li.type == LocType.borough
        then get_artworks_by_borough arts li.value 6
        else search_artworks_by_location arts li.value 6
      if !artworks.isEmpty then
        let msg := "Here are public artworks in " ++ titleCase li.value ++ "!" ++
          (match (get_nearby_places_info gen st li.value).1 with
           | some pi => "\n\nNearby spots:\n" ++ pi
           | none => "") ++ "\n\nWould you like to create an itinerary?"
        ({ message := msg,
           metadata :=
             { artworks := some artworks, show_itinerary_prompt := some true,
               suggested_locations := some (artworks.map ArtProj.id) } },
          acc ++ [Ev.extractLoc, Ev.db, Ev.llm])
      else
        ({ message := "I couldn't find artworks specifically in " ++ titleCase li.value ++
             " in our database. Try browsing the map or searching for a nearby area!",
           metadata := { navigation := get_navigation_info "map" } },
          acc ++ [Ev.extractLoc, Ev.db])
  | none => step5 arts gen st message user message_lower (acc ++ [Ev.extractLoc])

/-- Step 3: dining/places queries (terminal when the second extraction also
succeeds). -/
noncomputable def step3 (arts : List StoredArt) (gen : String → String → GenResult)
    (st : LLMState) (message : String) (user : ChatUser) (message_lower : String)
    (acc : List Ev) : Response × List Ev :=
  let pq := check_for_nearby_places_query arts message
  let acc0 := acc ++
    (if place_keywords.any (fun kw => containsSubS message_lower kw) then [Ev.extractLoc]
     else [])
  if pq.1 && (match pq.2 with
              | some s => s != ""
              | none => false) then
    match extract_location_from_message arts message with
    | some li =>
        let place_location := pq.2.getD ""
        let artworks := if li.type == LocType.borough
          then get_artworks_by_borough arts li.value 6
          else search_artworks_by_location arts place_location 6
        let pres := get_nearby_places_info gen st place_location
        let acc1 := acc0 ++ [Ev.extractLoc, Ev.db, Ev.llm]
        if !artworks.isEmpty then
          let msg := match pres.1 with
            | some pi =>
                "Great choice! Here are artworks and dining spots near " ++
                  titleCase place_location ++ ":\n\nNearby places:\n" ++ pi ++
                  "\n\nI also found some artworks in this area!"
            | none => "Here are artworks near " ++ titleCase place_location ++ "!"
          ({ message := msg,
             metadata :=
               { artworks := some artworks, show_itinerary_prompt := some true,
                 suggested_locations := some (artworks.map ArtProj.id) } }, acc1)
        else
          match pres.1 with
          | some pi =>
              ({ message := "Here are some spots near " ++ titleCase place_location ++
                   ":\n\n" ++ pi ++ "\n\nI can also help you find art in this area!",
                 metadata := {} }, acc1)
          | none =>
              ({ message := (generate_ai_response gen pres.2 message user (some "places")).1,
                 metadata := {} }, acc1 ++ [Ev.llm])
    | none => step4 arts gen st message user message_lower acc0
  else step4 arts gen st message user message_lower acc0

/-- `ArtineraryAI.process_message`: the moderation gate, then the
strictly-ordered steps 2-10 (each `return` terminal).  Returns the response
together with the trace of external calls the executed path made. -/
noncomputable def process_message (arts : List StoredArt)
    (gen : String → String → GenResult) (st : LLMState) (message : String)
    (user : ChatUser) (user_location : Option UserLoc := none) :
    Response × List Ev :=
  let message_lower := String.mk (lowerData message)
  let cm := check_content message
  if cm.1 then
    ({ message := get_warning_response cm.2.1,
       metadata := { content_warning := some true, severity := cm.2.1 } }, [Ev.modLog])
  else
    if nearby_keywords.any (fun kw => containsSubS message_lower kw) then
      stepNearby arts user_location
    else
      step3 arts gen st message user message_lower []

/-! ## Base62 share codes (`events/utils.py`) -/

/-- `string.ascii_letters + string.digits`. -/
def BASE62_ALPHABET : List Char :=
  "abcdefghijklmnopqrstuvwxyzABCDEFGHIJKLMNOPQRSTUVWXYZ0123456789".data

/-- `BASE62_ALPHABET.index(ch)` (None instead of raising). -/
def b62valAux (c : Char) (i : Nat) : List Char → Option Nat
  | [] => none
  | d :: ds => if d == c then some i else b62valAux c (i + 1) ds

/-- Index of a character in the Base62 alphabet. -/
def b62val (c : Char) : Option Nat := b62valAux c 0 BASE62_ALPHABET

/-- The digit loop of `base62_encode`: repeated `divmod(num, 62)` with the
remainder digits appended then reversed, i.e. most significant first. -/
def encNat : Nat → List Char
  | 0 => []
  | n + 1 => encNat ((n + 1) / 62) ++ [BASE62_ALPHABET.getD ((n + 1) % 62) 'a']
  termination_by n => n
  decreasing_by exact Nat.div_lt_self (Nat.succ_pos n) (by norm_num)

/-- `base62_encode(num)`: `ValueError` (modelled as `.error`) iff
`num <= 0`. -/
def base62_encode (num : ℤ) : Except String String :=
  if num ≤ 0 then .error "ID must be a positive integer"
  else .ok (String.mk (encNat num.toNat))

/-- The accumulator loop of `base62_decode` (`num = num * base + value`),
failing on the first character outside the alphabet. -/
def decAux : List Char → Nat → Option Nat
  | [], acc => some acc
  | c :: cs, acc =>
      match b62val c with
      | some v => decAux cs (acc * 62 + v)
      | none => none

/-- `base62_decode(code)`: `ValueError` iff some character is outside the
alphabet. -/
def base62_decode (code : String) : Except String Nat :=
  match decAux code.data 0 with
  | some n => .ok n
  | none => .error "Invalid character in Base62 code"

theorem decAux_append (l1 l2 : List Char) :
    ∀ acc, decAux (l1 ++ l2) acc =
      match decAux l1 acc with
      | some m => decAux l2 m
      | none => none := by
  induction l1 with
  | nil => intro acc; simp [decAux]
  | cons c cs ih =>
      intro acc
      simp only [List.cons_append, decAux]
      cases b62val c with
      | some v => exact ih (acc * 62 + v)
      | none => rfl

theorem b62val_getD :
    ∀ r : Fin 62, b62val (BASE62_ALPHABET.getD r.val 'a') = some r.val := by decide

theorem decAux_encNat (n : Nat) :
    ∀ acc, decAux (encNat n) acc = some (acc * 62 ^ (encNat n).length + n) := by
  induction n using Nat.strong_induction_on with
  | _ n ih =>
    match n with
    | 0 => intro acc; simp [encNat, decAux]
    | m + 1 =>
      intro acc
      have hstep : encNat (m + 1) =
          encNat ((m + 1) / 62) ++ [BASE62_ALPHABET.getD ((m + 1) % 62) 'a'] := by
        simp [encNat]
      have hdiv : (m + 1) / 62 < m + 1 := Nat.div_lt_self (Nat.succ_pos m) (by norm_num)
      have hmodlt : (m + 1) % 62 < 62 := Nat.mod_lt _ (by norm_num)
      rw [hstep, decAux_append, ih _ hdiv acc]
      have hval := b62val_getD ⟨(m + 1) % 62, hmodlt⟩
      simp only at hval
      simp only [decAux, hval]
      have hm : 62 * ((m + 1) / 62) + (m + 1) % 62 = m + 1 := Nat.div_add_mod (m + 1) 62
      have harith :
          (acc * 62 ^ (encNat ((m + 1) / 62)).length + (m + 1) / 62) * 62 + (m + 1) % 62 =
            acc * 62 ^ ((encNat ((m + 1) / 62)).length + 1) + (m + 1) := by
        calc (acc * 62 ^ (encNat ((m + 1) / 62)).length + (m + 1) / 62) * 62 + (m + 1) % 62
            = acc * (62 ^ (encNat ((m + 1) / 62)).length * 62) +
                (62 * ((m + 1) / 62) + (m + 1) % 62) := by ring
          _ = acc * 62 ^ ((encNat ((m + 1) / 62)).length + 1) + (m + 1) := by
                rw [hm, pow_succ]
      rw [harith]
      simp [List.length_append]

theorem b62valAux_none (c : Char) :
    ∀ (l : List Char) (i : Nat), b62valAux c i l = none ↔ c ∉ l := by
  intro l
  induction l with
  | nil => intro i; simp [b62valAux]
  | cons d ds ih =>
      intro i
      by_cases hd : d = c
      · subst hd
        simp [b62valAux]
      · have hbeq : (d == c) = false := beq_eq_false_iff_ne.mpr hd
        have hcd : ¬ c = d := fun h => hd h.symm
        simp [b62valAux, hbeq, ih (i + 1), hcd]

theorem decAux_none (l : List Char) :
    ∀ acc, decAux l acc = none ↔ ∃ c ∈ l, b62val c = none := by
  induction l with
  | nil => intro acc; simp [decAux]
  | cons c cs ih =>
      intro acc
      cases hv : b62val c with
      | some v => simp [decAux, hv, ih]
      | none =>
          simp only [decAux, hv]
          constructor
          · intro _
            exact ⟨c, List.mem_cons_self c cs, hv⟩
          · intro _
            trivial

/-! ## Claim theorems -/

theorem check_contentAux_find (low : List Char) :
    ∀ l : List ModPattern,
      check_contentAux low l =
        match l.find? (fun p => p.hit low) with
        | some p => (true, some (sevOf p.raw), some p.raw)
        | none => (false, none, none) := by
  intro l
  induction l with
  | nil => simp [check_contentAux]
  | cons p ps ih =>
      simp only [check_contentAux, List.find?]
      by_cases hp : p.hit low = true
      · simp [hp]
      · simp [hp, ih]

/-- C1: `ContentModerator.check_content` flags a message exactly when one of
the ordered case-insensitive patterns matches the lowercased text, and the
first matching pattern decides the severity.  The severity map realises the
category rule — profanity (patterns 1-2) and harassment (pattern 6) and
repeated characters (pattern 7) give Warn, sexual content (patterns 3-4) and
self-harm/threat (pattern 5) give Report.  The four example messages behave
as the spec states. -/
theorem check_content_spec :
    (∀ message : String,
        check_content message =
          match INAPPROPRIATE_PATTERNS.find? (fun p => p.hit (lowerData message)) with
          | some p => (true, some (sevOf p.raw), some p.raw)
          | none => (false, none, none)) ∧
    INAPPROPRIATE_PATTERNS.map (fun p => sevOf p.raw) =
      [SEVERITY_WARN, SEVERITY_WARN, SEVERITY_REPORT, SEVERITY_REPORT,
       SEVERITY_REPORT, SEVERITY_WARN, SEVERITY_WARN] ∧
    check_content "you stupid bot" = (true, some SEVERITY_WARN, some rawPat6) ∧
    check_content "go kill yourself" = (true, some SEVERITY_REPORT, some rawPat5) ∧
    check_content "hellooooooo" = (true, some SEVERITY_WARN, some rawPat7) ∧
    (check_content "Show me art in Central Park").1 = false :=
  ⟨fun message => check_contentAux_find (lowerData message) INAPPROPRIATE_PATTERNS,
   by decide, by decide, by decide, by decide, by decide⟩

theorem calculate_distance_self (a b : ℝ) : calculate_distance a b a b = 0 := by
  simp only [calculate_distance, radiansR, atan2R]
  norm_num [Real.sin_zero, Real.sqrt_zero, Real.sqrt_one, Real.arctan_zero]

theorem calculate_distance_symm (a b c d : ℝ) :
    calculate_distance a b c d = calculate_distance c d a b := by
  simp only [calculate_distance]
  have h1 : radiansR (a - c) = -(radiansR (c - a)) := by simp only [radiansR]; ring
  have h2 : radiansR (b - d) = -(radiansR (d - b)) := by simp only [radiansR]; ring
  rw [h1, h2]
  simp only [neg_div, Real.sin_neg, neg_sq]
  ring_nf

/-- C8: the haversine distance is exactly 0 on identical coordinates and
symmetric (here: exactly equal, hence within the 1e-9 tolerance). -/
theorem calculate_distance_self_and_symm :
    ∀ lat1 lon1 lat2 lon2 : ℝ,
      calculate_distance lat1 lon1 lat1 lon1 = 0 ∧
      |calculate_distance lat1 lon1 lat2 lon2 - calculate_distance lat2 lon2 lat1 lon1|
        ≤ 1e-9 := by
  intro lat1 lon1 lat2 lon2
  refine ⟨calculate_distance_self lat1 lon1, ?_⟩
  rw [calculate_distance_symm lat1 lon1 lat2 lon2, sub_self, abs_zero]
  norm_num

theorem b62val_none (c : Char) : b62val c = none ↔ c ∉ BASE62_ALPHABET :=
  b62valAux_none c BASE62_ALPHABET 0

/-- C9: `base62_decode` inverts `base62_encode` on every positive integer;
`base62_encode` raises exactly on non-positive input, and `base62_decode`
raises exactly when some character lies outside the Base62 alphabet. -/
theorem base62_roundtrip_and_errors :
    (∀ n : Nat, 0 < n →
        ∃ s, base62_encode (n : ℤ) = .ok s ∧ base62_decode s = .ok n) ∧
    (∀ n : ℤ, (∃ e, base62_encode n = .error e) ↔ n ≤ 0) ∧
    (∀ code : String,
        (∃ e, base62_decode code = .error e) ↔
          ∃ c ∈ code.data, c ∉ BASE62_ALPHABET) := by
  refine ⟨?_, ?_, ?_⟩
  · intro n hn
    have h1 : ¬ ((n : ℤ) ≤ 0) := by
      push_neg
      exact_mod_cast hn
    refine ⟨String.mk (encNat n), ?_, ?_⟩
    · rw [base62_encode, if_neg h1]
      norm_num
    · have hd := decAux_encNat n 0
      rw [zero_mul, zero_add] at hd
      rw [base62_decode]
      simp only [String.data]
      rw [hd]
  · intro n
    by_cases h : n ≤ 0
    · simp [base62_encode, h]
    · simp [base62_encode, h]
  · intro code
    have key : (decAux code.data 0 = none) ↔ ∃ c ∈ code.data, c ∉ BASE62_ALPHABET := by
      rw [decAux_none]
      constructor
      · rintro ⟨c, hc, hv⟩
        exact ⟨c, hc, (b62val_none c).mp hv⟩
      · rintro ⟨c, hc, hv⟩
        exact ⟨c, hc, (b62val_none c).mpr hv⟩
    cases hd : decAux code.data 0 with
    | some n =>
        have hno : ¬ ∃ c ∈ code.data, c ∉ BASE62_ALPHABET := by
          rw [← key, hd]
          simp
        simp [base62_decode, hd, hno]
    | none =>
        have hyes : ∃ c ∈ code.data, c ∉ BASE62_ALPHABET := key.mp hd
        simp [base62_decode, hd, hyes]

/-- Witness for C9 at concrete inputs. -/
theorem base62_roundtrip_and_errors_witness :
    (0 < 12345 ∧
      ∃ s, base62_encode (12345 : ℤ) = .ok s ∧ base62_decode s = .ok 12345) ∧
    ((∃ e, base62_encode (-3 : ℤ) = .error e) ↔ (-3 : ℤ) ≤ 0) ∧
    ((∃ e, base62_decode "ab!" = .error e) ↔ ∃ c ∈ "ab!".data, c ∉ BASE62_ALPHABET) :=
  ⟨⟨by norm_num, base62_roundtrip_and_errors.1 12345 (by norm_num)⟩,
   base62_roundtrip_and_errors.2.1 (-3),
   base62_roundtrip_and_errors.2.2 "ab!"⟩

/-- C5: `extract_location_from_message` tries its six strategies in a fixed
order, the first success stopping evaluation (so at most one match is
produced); the three example messages behave as the spec states, the third
provided no stored artwork's location contains "hello there". -/
theorem extract_location_ordered :
    ∀ arts : List StoredArt,
      (∀ message : String,
          extract_location_from_message arts message =
            firstSome
              [extractBorough (String.mk (lowerData message)),
               extractNeighborhood (String.mk (lowerData message)),
               extractStreet (String.mk (lowerData message)),
               extractPlace (String.mk (lowerData message)),
               extractPrep arts (String.mk (lowerData message)),
               extractFallback arts (String.mk (lowerData message))]) ∧
      extract_location_from_message arts "Show me art in Manhattan" =
        some ⟨LocType.borough, "Manhattan"⟩ ∧
      extract_location_from_message arts "art near central park" =
        some ⟨LocType.neighborhood, "central park"⟩ ∧
      ((∀ a ∈ arts, icontainsField a.location "hello there" = false) →
        extract_location_from_message arts "hello there" = none) := by
  intro arts
  refine ⟨?_, ?_, ?_, ?_⟩
  · intro message
    simp only [extract_location_from_message]
    cases hb : extractBorough (String.mk (lowerData message)) <;>
      cases hn : extractNeighborhood (String.mk (lowerData message)) <;>
        cases hs : extractStreet (String.mk (lowerData message)) <;>
          cases hp : extractPlace (String.mk (lowerData message)) <;>
            cases hq : extractPrep arts (String.mk (lowerData message)) <;>
              cases hf : extractFallback arts (String.mk (lowerData message)) <;>
                simp [firstSome, Option.orElse]
  · have hb : extractBorough (String.mk (lowerData "Show me art in Manhattan")) =
        some ⟨LocType.borough, "Manhattan"⟩ := by decide
    simp only [extract_location_from_message, hb]
  · have hb : extractBorough (String.mk (lowerData "art near central park")) = none := by
      decide
    have hn : extractNeighborhood (String.mk (lowerData "art near central park")) =
        some ⟨LocType.neighborhood, "central park"⟩ := by decide
    simp only [extract_location_from_message, hb, hn]
  · intro h
    have hany : ∀ phrase : String,
        (arts.any (fun art => icontainsField art.location phrase) = true) →
        ∃ a ∈ arts, icontainsField a.location phrase = true := by
      intro phrase hp
      simpa using List.any_eq_true.mp hp
    have hanyHello : arts.any (fun art => icontainsField art.location "hello there")
        = false := by
      rw [List.any_eq_false]
      intro a ha
      simp [h a ha]
    have hb : extractBorough (String.mk (lowerData "hello there")) = none := by decide
    have hn : extractNeighborhood (String.mk (lowerData "hello there")) = none := by decide
    have hs : extractStreet (String.mk (lowerData "hello there")) = none := by decide
    have hp : extractPlace (String.mk (lowerData "hello there")) = none := by decide
    have hq : extractPrep arts (String.mk (lowerData "hello there")) = none := by
      have hsearch : reSearch (String.mk (lowerData "hello there")).data rxPrep = none := by
        decide
      simp [extractPrep, hsearch]
    have hf : extractFallback arts (String.mk (lowerData "hello there")) = none := by
      have hws : splitWs (String.mk (lowerData "hello there")) = ["hello", "there"] := by
        decide
      have h3 : extractFallbackN arts ["hello", "there"] 3 = none := by
        have hw3 : windowPhrases ["hello", "there"] 3 = [] := by decide
        rw [extractFallbackN, hw3]
        rfl
      have h2 : extractFallbackN arts ["hello", "there"] 2 = none := by
        have hw2 : windowPhrases ["hello", "there"] 2 = ["hello there"] := by decide
        have hskip : fallbackSkipPhrases.contains "hello there" = false := by decide
        rw [extractFallbackN, hw2, findSomeL]
        simp only [hskip, hanyHello, Bool.false_eq_true, if_false]
        rfl
      simp [extractFallback, hws, h3, h2, Option.orElse]
    simp only [extract_location_from_message, hb, hn, hs, hp, hq, hf]

/-- Witness for C5: the repository-dependent conjunct at a concrete artwork
table that does not mention "hello there". -/
theorem extract_location_ordered_witness :
    extract_location_from_message
        [{ id := 7, location := some "Union Square Park" }] "hello there" = none :=
  (extract_location_ordered [{ id := 7, location := some "Union Square Park" }]).2.2.2
    (by decide)

/-! ## Pipeline helper lemmas -/

/-- Truthiness of an optional Python value (`None`/absent is falsy). -/
def pyTruthyOpt : Option PyVal → Bool
  | some v => pyTruthy v
  | none => false

theorem process_message_flagged (arts : List StoredArt)
    (gen : String → String → GenResult) (st : LLMState) (message : String)
    (user : ChatUser) (uloc : Option UserLoc)
    (h : (check_content message).1 = true) :
    process_message arts gen st message user uloc =
      ({ message := get_warning_response (check_content message).2.1,
         metadata := { content_warning := some true,
                       severity := (check_content message).2.1 } }, [Ev.modLog]) := by
  simp only [process_message]
  rw [if_pos h]

theorem process_message_not_flagged_nearby (arts : List StoredArt)
    (gen : String → String → GenResult) (st : LLMState) (message : String)
    (user : ChatUser) (uloc : Option UserLoc)
    (h1 : (check_content message).1 = false)
    (h2 : nearby_keywords.any
        (fun kw => containsSubS (String.mk (lowerData message)) kw) = true) :
    process_message arts gen st message user uloc = stepNearby arts uloc := by
  simp only [process_message]
  rw [if_neg (by simp [h1]), if_pos h2]

theorem stepNearby_falsy (arts : List StoredArt) (uloc : Option UserLoc)
    (h : pyTruthyOpt (effLat uloc) = false ∨ pyTruthyOpt (effLng uloc) = false) :
    stepNearby arts uloc =
      ({ message := "I'd love to show you nearby artworks! Please enable location sharing or tell me what area you'd like to explore.",
         metadata := { request_location := some true } }, []) := by
  unfold stepNearby
  cases hla : effLat uloc with
  | none => rfl
  | some lav =>
      cases hlb : effLng uloc with
      | none => rfl
      | some lnv =>
          have hcond : (pyTruthy lav && pyTruthy lnv) = false := by
            rcases h with h | h
            · rw [hla] at h
              simp only [pyTruthyOpt] at h
              simp [h]
            · rw [hlb] at h
              simp only [pyTruthyOpt] at h
              simp [h]
          simp [hcond]

theorem stepNearby_truthy (arts : List StoredArt) (uloc : Option UserLoc)
    (lav lnv : PyVal) (hla : effLat uloc = some lav) (hlb : effLng uloc = some lnv)
    (h1 : pyTruthy lav = true) (h2 : pyTruthy lnv = true) :
    stepNearby arts uloc =
      (if (get_nearby_artworks arts lav lnv 5 2).isEmpty then
        ({ message := "No artworks found within 2 miles of your location. Try exploring the map or searching for a nearby area!",
           metadata := { navigation := get_navigation_info "map" } }, [Ev.db])
      else
        ({ message := "Found " ++ toString (get_nearby_artworks arts lav lnv 5 2).length ++
             " artworks near you!",
           metadata :=
             { artworks := some (get_nearby_artworks arts lav lnv 5 2),
               show_map := some true, show_itinerary_prompt := some true,
               suggested_locations :=
                 some ((get_nearby_artworks arts lav lnv 5 2).map ArtProj.id) } },
         [Ev.db])) := by
  unfold stepNearby
  rw [hla, hlb]
  simp [h1, h2]

/-- C2: a flagged message short-circuits the whole pipeline — the response
is the severity-specific warning with `content_warning` and `severity`
metadata, and the trace is exactly the moderation audit-log event: no
location extraction, no repository query and no LLM call happen. -/
theorem process_message_moderation_short_circuit :
    ∀ (arts : List StoredArt) (gen : String → String → GenResult) (st : LLMState)
      (message : String) (user : ChatUser) (uloc : Option UserLoc),
      (check_content message).1 = true →
      process_message arts gen st message user uloc =
        ({ message := get_warning_response (check_content message).2.1,
           metadata := { content_warning := some true,
                         severity := (check_content message).2.1 } }, [Ev.modLog]) ∧
      Ev.db ∉ (process_message arts gen st message user uloc).2 ∧
      Ev.extractLoc ∉ (process_message arts gen st message user uloc).2 ∧
      Ev.llm ∉ (process_message arts gen st message user uloc).2 := by
  intro arts gen st message user uloc h
  have he := process_message_flagged arts gen st message user uloc h
  refine ⟨he, ?_, ?_, ?_⟩ <;> rw [he] <;> simp

/-- Witness for C2: the spec's pipeline-ordering scenario. -/
theorem process_message_moderation_witness :
    (check_content "you stupid bot near central park").1 = true ∧
    process_message [] (fun _ _ => .err "x") ⟨none, []⟩
        "you stupid bot near central park" ⟨"Test", "test"⟩ none =
      ({ message := get_warning_response
           (check_content "you stupid bot near central park").2.1,
         metadata :=
           { content_warning := some true,
             severity := (check_content "you stupid bot near central park").2.1 } },
       [Ev.modLog]) :=
  ⟨by decide,
   (process_message_moderation_short_circuit [] (fun _ _ => .err "x") ⟨none, []⟩
       "you stupid bot near central park" ⟨"Test", "test"⟩ none (by decide)).1⟩

/-- C6 (amended): for every non-flagged message containing a nearby keyword,
when both effective coordinates are present, numeric and nonzero (truthy),
the proximity query runs and the response is the found-artworks message or
the browse-the-map suggestion, with exactly the one repository query in the
trace; when the location is absent, incomplete, or a coordinate is falsy,
the response asks to share the location with `request_location` metadata
and an empty trace.  (The unamended claim said "numeric": a coordinate equal
to 0 is numeric but falsy in the `if lat and lng` guard, see the
counterexample.) -/
theorem process_message_nearby_step :
    ∀ (arts : List StoredArt) (gen : String → String → GenResult) (st : LLMState)
      (message : String) (user : ChatUser) (uloc : Option UserLoc),
      (check_content message).1 = false →
      nearby_keywords.any
        (fun kw => containsSubS (String.mk (lowerData message)) kw) = true →
      ((∀ qa qb : ℚ,
          effLat uloc = some (.num qa) → qa ≠ 0 →
          effLng uloc = some (.num qb) → qb ≠ 0 →
          ((get_nearby_artworks arts (.num qa) (.num qb) 5 2 = [] →
             process_message arts gen st message user uloc =
               ({ message := "No artworks found within 2 miles of your location. Try exploring the map or searching for a nearby area!",
                  metadata := { navigation := get_navigation_info "map" } }, [Ev.db])) ∧
           (get_nearby_artworks arts (.num qa) (.num qb) 5 2 ≠ [] →
             process_message arts gen st message user uloc =
               ({ message := "Found " ++
                    toString (get_nearby_artworks arts (.num qa) (.num qb) 5 2).length ++
                    " artworks near you!",
                  metadata :=
                    { artworks := some (get_nearby_artworks arts (.num qa) (.num qb) 5 2),
                      show_map := some true, show_itinerary_prompt := some true,
                      suggested_locations :=
                        some ((get_nearby_artworks arts (.num qa) (.num qb) 5 2).map
                          ArtProj.id) } },
                [Ev.db])))) ∧
       (pyTruthyOpt (effLat uloc) = false ∨ pyTruthyOpt (effLng uloc) = false →
         process_message arts gen st message user uloc =
           ({ message := "I'd love to show you nearby artworks! Please enable location sharing or tell me what area you'd like to explore.",
              metadata := { request_location := some true } }, []))) := by
  intro arts gen st message user uloc h1 h2
  have hpm := process_message_not_flagged_nearby arts gen st message user uloc h1 h2
  constructor
  · intro qa qb hla hqa hlb hqb
    have ht1 : pyTruthy (.num qa) = true := by simp [pyTruthy, hqa]
    have ht2 : pyTruthy (.num qb) = true := by simp [pyTruthy, hqb]
    have hsn := stepNearby_truthy arts uloc (.num qa) (.num qb) hla hlb ht1 ht2
    constructor
    · intro hempty
      rw [hpm, hsn, if_pos (by simp [hempty])]
    · intro hne
      rw [hpm, hsn, if_neg (by simpa [List.isEmpty_iff] using hne)]
  · intro hfalsy
    rw [hpm]
    exact stepNearby_falsy arts uloc hfalsy

/-- Witness for C6 at concrete inputs: no location dict at all yields the
request-location response with an empty trace. -/
theorem process_message_nearby_step_witness :
    (check_content "art nearby").1 = false ∧
    process_message [] (fun _ _ => .err "x") ⟨none, []⟩ "art nearby"
        ⟨"Test", "test"⟩ none =
      ({ message := "I'd love to show you nearby artworks! Please enable location sharing or tell me what area you'd like to explore.",
         metadata := { request_location := some true } }, []) :=
  ⟨by decide,
   (process_message_nearby_step [] (fun _ _ => .err "x") ⟨none, []⟩ "art nearby"
       ⟨"Test", "test"⟩ none (by decide) (by decide)).2 (Or.inl (by decide))⟩

/-- Counterexample to C6 as frozen: the user location `(0, 0)` is present
and numeric, yet `process_message` answers with the request-location
message and the empty trace — the `if lat and lng` truthiness guard treats
the numeric coordinate 0 as missing, so no nearby query runs and neither
the found-artworks nor the browse-the-map response is produced. -/
theorem process_message_nearby_zero_coord_cex :
    process_message [] (fun _ _ => .err "x") ⟨none, []⟩ "what is nearby"
        ⟨"Test", "test"⟩
        (some { lat := some (.num 0), lng := some (.num 0) }) =
      ({ message := "I'd love to show you nearby artworks! Please enable location sharing or tell me what area you'd like to explore.",
         metadata := { request_location := some true } }, []) := by
  rw [process_message_not_flagged_nearby _ _ _ _ _ _ (by decide) (by decide)]
  exact stepNearby_falsy _ _ (Or.inl (by decide))

/-- C10 (amended): for every non-flagged message containing a nearby
keyword and a location dict whose effective latitude or longitude is absent
or falsy (the number 0, the float 0.0, or the empty string), the pipeline
returns the request-location response with `request_location` metadata and
runs no nearby query.  (The unamended claim omitted "non-flagged": the
moderation gate runs first, see the counterexample.) -/
theorem process_message_falsy_coordinate :
    ∀ (arts : List StoredArt) (gen : String → String → GenResult) (st : LLMState)
      (message : String) (user : ChatUser) (l : UserLoc),
      (check_content message).1 = false →
      nearby_keywords.any
        (fun kw => containsSubS (String.mk (lowerData message)) kw) = true →
      pyTruthyOpt (effLat (some l)) = false ∨ pyTruthyOpt (effLng (some l)) = false →
      process_message arts gen st message user (some l) =
        ({ message := "I'd love to show you nearby artworks! Please enable location sharing or tell me what area you'd like to explore.",
           metadata := { request_location := some true } }, []) ∧
      Ev.db ∉ (process_message arts gen st message user (some l)).2 := by
  intro arts gen st message user l h1 h2 h3
  have he := process_message_not_flagged_nearby arts gen st message user (some l) h1 h2
  have hs := stepNearby_falsy arts (some l) h3
  refine ⟨he.trans hs, ?_⟩
  rw [he, hs]
  simp

/-- Witness for C10: latitude present as the empty string (falsy), longitude
a nonzero number. -/
theorem process_message_falsy_coordinate_witness :
    (check_content "closest artworks").1 = false ∧
    process_message [] (fun _ _ => .err "x") ⟨none, []⟩ "closest artworks"
        ⟨"Test", "test"⟩ (some { lat := some (.str ""), lng := some (.num 5) }) =
      ({ message := "I'd love to show you nearby artworks! Please enable location sharing or tell me what area you'd like to explore.",
         metadata := { request_location := some true } }, []) :=
  ⟨by decide,
   ((process_message_falsy_coordinate [] (fun _ _ => .err "x") ⟨none, []⟩
       "closest artworks" ⟨"Test", "test"⟩
       { lat := some (.str ""), lng := some (.num 5) }
       (by decide) (by decide) (Or.inl (by decide))).1)⟩

/-- Counterexample to C10 as frozen: the claim quantifies over every message
containing a nearby keyword, but a flagged message ("you stupid bot
nearby") with a falsy coordinate gets the moderation warning — its metadata
carries `content_warning`, not `request_location`. -/
theorem process_message_falsy_coordinate_cex :
    process_message [] (fun _ _ => .err "x") ⟨none, []⟩ "you stupid bot nearby"
        ⟨"Test", "test"⟩ (some { lat := some (.num 0), lng := some (.num 0) }) =
      ({ message := get_warning_response (some SEVERITY_WARN),
         metadata := { content_warning := some true,
                       severity := some SEVERITY_WARN } }, [Ev.modLog]) ∧
    (process_message [] (fun _ _ => .err "x") ⟨none, []⟩ "you stupid bot nearby"
        ⟨"Test", "test"⟩
        (some { lat := some (.num 0), lng := some (.num 0) })).1.metadata.request_location
      = none := by
  have he := process_message_flagged [] (fun _ _ => .err "x") ⟨none, []⟩
      "you stupid bot nearby" ⟨"Test", "test"⟩
      (some { lat := some (.num 0), lng := some (.num 0) }) (by decide)
  have hsev : (check_content "you stupid bot nearby").2.1 = some SEVERITY_WARN := by
    decide
  rw [he, hsev]
  exact ⟨rfl, rfl⟩

/-! ## LLM failure helpers -/

/-- A generation attempt that fails in the source's sense: an exception of
any class, or a response with no text. -/
def genFails : GenResult → Bool
  | .ok t => t == ""
  | .err _ => true

theorem fbLoop_all_fail (gen : String → String → GenResult) (prompt : String) :
    ∀ (models : List String) (tried : List String),
      (∀ m ∈ models, genFails (gen m prompt) = true) →
      fbLoop gen prompt tried models = none := by
  intro models
  induction models with
  | nil => intro tried _; rfl
  | cons m ms ih =>
      intro tried hall
      have hrest : ∀ x ∈ ms, genFails (gen x prompt) = true := fun x hx =>
        hall x (List.mem_cons_of_mem _ hx)
      rw [fbLoop]
      by_cases hm : tried.contains m
      · simp only [hm, if_true]
        exact ih tried hrest
      · simp only [hm, Bool.false_eq_true, if_false]
        have hfail := hall m (List.mem_cons_self _ _)
        cases hg : gen m prompt with
        | ok t =>
            rw [hg] at hfail
            simp only [genFails] at hfail
            simp only [hfail, if_true]
            exact ih (m :: tried) hrest
        | err e => exact ih (m :: tried) hrest

theorem try_generate_all_fail (gen : String → String → GenResult) (st : LLMState)
    (prompt : String)
    (hcur : ∀ m, st.current = some m → genFails (gen m prompt) = true)
    (hav : ∀ m ∈ st.available, genFails (gen m prompt) = true) :
    try_generate_with_fallback gen st prompt = (none, st) := by
  unfold try_generate_with_fallback
  cases hc : st.current with
  | none =>
      simp only [hc]
      rw [fbLoop_all_fail gen prompt st.available [] hav]
  | some m =>
      have hfail := hcur m hc
      cases hg : gen m prompt with
      | ok t =>
          rw [hg] at hfail
          simp only [genFails] at hfail
          simp only [hc, hg, hfail, if_true]
          rw [fbLoop_all_fail gen prompt st.available [m] hav]
      | err e =>
          simp only [hc, hg]
          rw [fbLoop_all_fail gen prompt st.available [m] hav]

/-- C7: when generation fails (an exception or empty text) on the selected
model and on every remaining candidate, `_try_generate_with_fallback`
returns `None` with the selection unchanged, and `generate_ai_response`
then returns the deterministic canned text of `_get_smart_fallback`; no
provider exception reaches the caller (failures are values throughout, and
the result is always the fallback string). -/
theorem llm_all_fail_fallback :
    ∀ (gen : String → String → GenResult) (st : LLMState) (prompt message : String)
      (user : ChatUser) (context : Option String),
      ((∀ m, st.current = some m → genFails (gen m prompt) = true) →
       (∀ m ∈ st.available, genFails (gen m prompt) = true) →
       try_generate_with_fallback gen st prompt = (none, st)) ∧
      ((∀ m, st.current = some m →
          genFails (gen m (ai_prompt message user context)) = true) →
       (∀ m ∈ st.available, genFails (gen m (ai_prompt message user context)) = true) →
       generate_ai_response gen st message user context =
         (get_smart_fallback message, st)) := by
  intro gen st prompt message user context
  constructor
  · intro hcur hav
    exact try_generate_all_fail gen st prompt hcur hav
  · intro hcur hav
    unfold generate_ai_response
    rw [try_generate_all_fail gen st (ai_prompt message user context) hcur hav]

/-- Witness for C7: a provider that always rate-limits. -/
theorem llm_all_fail_fallback_witness :
    try_generate_with_fallback (fun _ _ => .err "429 quota exceeded")
        ⟨some "gemini-2.0-flash", ["gemini-2.0-flash", "gemini-2.5-pro"]⟩ "p" =
      (none, ⟨some "gemini-2.0-flash", ["gemini-2.0-flash", "gemini-2.5-pro"]⟩) ∧
    generate_ai_response (fun _ _ => .err "429 quota exceeded")
        ⟨some "gemini-2.0-flash", ["gemini-2.0-flash", "gemini-2.5-pro"]⟩
        "what events are coming" ⟨"Test", "test"⟩ none =
      (get_smart_fallback "what events are coming",
       ⟨some "gemini-2.0-flash", ["gemini-2.0-flash", "gemini-2.5-pro"]⟩) :=
  ⟨(llm_all_fail_fallback (fun _ _ => .err "429 quota exceeded")
      ⟨some "gemini-2.0-flash", ["gemini-2.0-flash", "gemini-2.5-pro"]⟩ "p"
      "what events are coming" ⟨"Test", "test"⟩ none).1
      (fun _ _ => rfl) (fun _ _ => rfl),
   (llm_all_fail_fallback (fun _ _ => .err "429 quota exceeded")
      ⟨some "gemini-2.0-flash", ["gemini-2.0-flash", "gemini-2.5-pro"]⟩ "p"
      "what events are coming" ⟨"Test", "test"⟩ none).2
      (fun _ _ => rfl) (fun _ _ => rfl)⟩

/-- C3: with numeric user coordinates, every returned projection has both
coordinates present and lies within `radius_miles` (inclusive) of the user
by the haversine distance computed from exactly those stored coordinates;
the list is sorted ascending by its distance field (the key
`nearby.sort` uses); and its length is at most `limit`. -/
theorem get_nearby_artworks_spec :
    ∀ (arts : List StoredArt) (lat lon : ℚ) (limit : Nat) (radius_miles : ℝ),
      (∀ x ∈ get_nearby_artworks arts (.num lat) (.num lon) limit radius_miles,
        ∃ la lo : ℝ, x.latitude = some la ∧ x.longitude = some lo ∧
          calculate_distance ((lat : ℚ) : ℝ) ((lon : ℚ) : ℝ) la lo ≤ radius_miles) ∧
      (get_nearby_artworks arts (.num lat) (.num lon) limit radius_miles).Pairwise
        distLE ∧
      (get_nearby_artworks arts (.num lat) (.num lon) limit radius_miles).length ≤
        limit := by
  intro arts lat lon limit r
  have hunfold : get_nearby_artworks arts (.num lat) (.num lon) limit r =
      (List.insertionSort distLE
        ((arts.filter (fun a => a.latitude.isSome && a.longitude.isSome)).filterMap
          (nearbyItem ((lat : ℚ) : ℝ) ((lon : ℚ) : ℝ) r))).take limit := rfl
  refine ⟨?_, ?_, ?_⟩
  · intro x hx
    rw [hunfold] at hx
    have hx1 : x ∈ List.insertionSort distLE
        ((arts.filter (fun a => a.latitude.isSome && a.longitude.isSome)).filterMap
          (nearbyItem ((lat : ℚ) : ℝ) ((lon : ℚ) : ℝ) r)) :=
      List.take_subset _ _ hx
    have hx2 := (List.perm_insertionSort distLE _).subset hx1
    obtain ⟨a, _, hfa⟩ := List.mem_filterMap.mp hx2
    simp only [nearbyItem] at hfa
    split at hfa
    · split at hfa
      · split at hfa
        · injection hfa with hrec
          subst hrec
          exact ⟨_, _, rfl, rfl, by assumption⟩
        · exact absurd hfa (by simp)
      · exact absurd hfa (by simp)
    · exact absurd hfa (by simp)
  · rw [hunfold]
    exact List.Pairwise.sublist (List.take_sublist _ _)
      (List.sorted_insertionSort distLE _)
  · rw [hunfold]
    simp only [List.length_take]
    exact min_le_left _ _

/-- A concrete artwork stored exactly at the witness user's coordinates. -/
def artAtUser : StoredArt :=
  { id := 1, title := some "Alamo", artist_name := some "Tony Rosenthal",
    location := some "Astor Place", borough := some "Manhattan",
    latitude := some (.num 40), longitude := some (.num (-73)) }

theorem get_nearby_artworks_at_user :
    get_nearby_artworks [artAtUser] (.num 40) (.num (-73)) 5 2 =
      [{ id := 1, title := "Alamo", artist := "Tony Rosenthal",
         location := "Astor Place", borough := "Manhattan",
         distance := some (round2 0),
         latitude := some ((40 : ℚ) : ℝ), longitude := some ((-73 : ℚ) : ℝ) }] := by
  have hd := calculate_distance_self ((40 : ℚ) : ℝ) ((-73 : ℚ) : ℝ)
  have hitem : nearbyItem ((40 : ℚ) : ℝ) ((-73 : ℚ) : ℝ) 2 artAtUser =
      some { id := 1, title := "Alamo", artist := "Tony Rosenthal",
             location := "Astor Place", borough := "Manhattan",
             distance := some (round2 0),
             latitude := some ((40 : ℚ) : ℝ), longitude := some ((-73 : ℚ) : ℝ) } := by
    simp only [nearbyItem, artAtUser, floatOf]
    rw [hd]
    rw [if_pos (by norm_num : (0 : ℝ) ≤ 2)]
    rfl
  have hfil : ([artAtUser].filter (fun a => a.latitude.isSome && a.longitude.isSome)) =
      [artAtUser] := by decide
  show (List.insertionSort distLE
      (([artAtUser].filter (fun a => a.latitude.isSome && a.longitude.isSome)).filterMap
        (nearbyItem ((40 : ℚ) : ℝ) ((-73 : ℚ) : ℝ) 2))).take 5 = _
  rw [hfil, List.filterMap_cons, hitem]
  simp [List.insertionSort, List.orderedInsert]

/-- Witness for C3: at a table holding one artwork at the user's own
coordinates the result is the one-element list (so the membership
hypothesis is non-vacuously discharged), and the three properties hold. -/
theorem get_nearby_artworks_spec_witness :
    (∀ x ∈ get_nearby_artworks [artAtUser] (.num 40) (.num (-73)) 5 2,
      ∃ la lo : ℝ, x.latitude = some la ∧ x.longitude = some lo ∧
        calculate_distance ((40 : ℚ) : ℝ) (((-73 : ℚ) : ℚ) : ℝ) la lo ≤ 2) ∧
    (get_nearby_artworks [artAtUser] (.num 40) (.num (-73)) 5 2).Pairwise distLE ∧
    (get_nearby_artworks [artAtUser] (.num 40) (.num (-73)) 5 2).length = 1 := by
  refine ⟨(get_nearby_artworks_spec [artAtUser] 40 (-73) 5 2).1,
    (get_nearby_artworks_spec [artAtUser] 40 (-73) 5 2).2.1, ?_⟩
  rw [get_nearby_artworks_at_user]
  rfl

/-- C4: non-numeric or `None` user coordinates yield the empty list (the
`float` conversion failure is caught, no exception escapes), and one record
whose stored coordinate does not convert is skipped on its own — the scan
over the remaining records is unchanged. -/
theorem get_nearby_artworks_invalid :
    (∀ (arts : List StoredArt) (limit : Nat) (r : ℝ),
        get_nearby_artworks arts (.str "invalid") (.str "coords") limit r = []) ∧
    (∀ (arts : List StoredArt) (limit : Nat) (r : ℝ),
        get_nearby_artworks arts .pynone .pynone limit r = []) ∧
    (∀ (pre post : List StoredArt) (bad : StoredArt) (lat lon : ℚ) (limit : Nat)
        (r : ℝ),
        ((∃ v, bad.latitude = some v ∧ floatOf v = none) ∨
         (∃ v, bad.longitude = some v ∧ floatOf v = none)) →
        get_nearby_artworks (pre ++ bad :: post) (.num lat) (.num lon) limit r =
          get_nearby_artworks (pre ++ post) (.num lat) (.num lon) limit r) := by
  refine ⟨?_, ?_, ?_⟩
  · intro arts limit r
    have h1 : floatOf (.str "invalid") = none := by decide
    simp only [get_nearby_artworks, h1]
  · intro arts limit r
    simp only [get_nearby_artworks, floatOf]
  · intro pre post bad lat lon limit r hbad
    have hf : nearbyItem ((lat : ℚ) : ℝ) ((lon : ℚ) : ℝ) r bad = none := by
      unfold nearbyItem
      rcases hbad with ⟨v, hv, hfv⟩ | ⟨v, hv, hfv⟩
      · rw [hv]
        cases hw : bad.longitude with
        | none => rfl
        | some w =>
            simp only [hfv]
      · rw [hv]
        cases hw : bad.latitude with
        | none => rfl
        | some u =>
            cases hfu : floatOf u with
            | none => simp only [hfu]
            | some q => simp only [hfu, hfv]
    have hmid :
        ((pre ++ bad :: post).filter
            (fun a => a.latitude.isSome && a.longitude.isSome)).filterMap
          (nearbyItem ((lat : ℚ) : ℝ) ((lon : ℚ) : ℝ) r) =
        ((pre ++ post).filter
            (fun a => a.latitude.isSome && a.longitude.isSome)).filterMap
          (nearbyItem ((lat : ℚ) : ℝ) ((lon : ℚ) : ℝ) r) := by
      rw [List.filter_append, List.filter_append, List.filterMap_append,
        List.filterMap_append, List.filter_cons]
      by_cases hp : (bad.latitude.isSome && bad.longitude.isSome) = true
      · rw [if_pos hp, List.filterMap_cons, hf]
      · rw [if_neg hp]
    show (List.insertionSort distLE _).take limit = (List.insertionSort distLE _).take limit
    rw [hmid]

/-- A concrete record whose stored latitude is present but malformed. -/
def badArt : StoredArt := { id := 2, latitude := some (.str "oops"), longitude := some (.num 3) }

/-- Witness for C4: the malformed record is skipped (dropping it leaves the
query unchanged), and the non-numeric user coordinates of the spec's
example yield the empty list. -/
theorem get_nearby_artworks_invalid_witness :
    ((∃ v, badArt.latitude = some v ∧ floatOf v = none) ∨
     (∃ v, badArt.longitude = some v ∧ floatOf v = none)) ∧
    get_nearby_artworks [badArt] (.num 0) (.num 0) 5 2 =
      get_nearby_artworks [] (.num 0) (.num 0) 5 2 ∧
    get_nearby_artworks [] (.str "invalid") (.str "coords") 5 2 = [] :=
  ⟨Or.inl ⟨.str "oops", rfl, by decide⟩,
   by
     have h := get_nearby_artworks_invalid.2.2 [] [] badArt 0 0 5 2
       (Or.inl ⟨.str "oops", rfl, by decide⟩)
     simpa using h,
   get_nearby_artworks_invalid.1 [] 5 2⟩
